import Mathlib

set_option autoImplicit false

/-!
Shallow embedding of the `intent-framework` code-generation service
(`CodegenService`, file `src/unnamed/part_000`) and of the `Dto` parameter
decorator (`src/packages/core/lib/validator/index.ts`).

Modelling choices, stated once:

* The Eta template engine is an external, deterministic, side-effect-free
  collaborator; every generator therefore takes the renderer as an explicit
  function argument `render : String → InputBag → String` standing for
  `this.templateEngine.renderAsync(templateName, input)`.
* The filesystem is `SysState`: plain generated files are a path ↦ text
  association list; the two registry files (`app/module.ts` and
  `config/index.ts`) are kept as structured ts-morph-like trees, because the
  generators only ever read and mutate them structurally and the parse/print
  round trip is out of scope.  `Option` records whether each registry file
  exists on disk.
* A thrown JS exception is modelled by the `Outcome.err` constructor, which
  carries the on-disk state at throw time: ts-morph mutations are in-memory
  until `.save()`, so an error between a mutation and its save leaves the
  disk state unchanged.
-/

namespace Intent

/-- An `addImportDeclaration` argument / a printed import statement:
`defaultImport`, `namedImports` and `moduleSpecifier` as in ts-morph. -/
structure ImportDecl where
  defaultImport : Option String
  namedImports : List String
  moduleSpecifier : String
deriving Repr, DecidableEq

/-- An expression node, as far as the generators inspect one: either an
`ArrayLiteralExpression` (its elements kept as their printed text, which is
what `addElement` receives) or any other kind of expression. -/
inductive TsExpr where
  | arrayLit (elems : List String)
  | otherExpr (text : String)
deriving Repr, DecidableEq

/-- A member of the `@Module({...})` object literal: a `PropertyAssignment`
with an initializer (the only kind `Node.isPropertyAssignment` accepts), or
any other property kind (shorthand, spread, ...). -/
inductive PropNode where
  | propAssign (name : String) (init : TsExpr)
  | otherProp (name : String)
deriving Repr, DecidableEq

/-- The property name, used by `getProperty(name)` lookup. -/
def PropNode.name : PropNode → String
  | .propAssign n _ => n
  | .otherProp n => n

/-- A decorator argument: an `ObjectLiteralExpression` (what
`asKindOrThrow(SyntaxKind.ObjectLiteralExpression)` accepts) or anything
else. -/
inductive DecoratorArg where
  | objectLit (props : List PropNode)
  | otherArg (text : String)
deriving Repr, DecidableEq

/-- A decorator with its name (for `getDecoratorOrThrow`) and arguments
(for `getArguments()`). -/
structure DecoratorNode where
  name : String
  args : List DecoratorArg
deriving Repr, DecidableEq

/-- A class declaration with its name (for `getClassOrThrow`) and its
decorators. -/
structure ClassDecl where
  name : String
  decorators : List DecoratorNode
deriving Repr, DecidableEq

/-- The parsed `app/module.ts` registry tree: its import declarations and
its class declarations.  Everything the generators never touch is outside
the model. -/
structure ModuleFile where
  imports : List ImportDecl
  classes : List ClassDecl
deriving Repr, DecidableEq

/-- The parsed `config/index.ts` registry tree: its import declarations and
the expression of its first `export default` assignment
(`getExportAssignment` with `isExportEquals() === false`), when present. -/
structure ConfigIndexFile where
  imports : List ImportDecl
  defaultExport : Option TsExpr
deriving Repr, DecidableEq

/-- The on-disk state: generated plain files (path ↦ content, relative to
the project root), and the two registry files when they exist. -/
structure SysState where
  files : List (String × String)
  moduleFile : Option ModuleFile
  configIndex : Option ConfigIndexFile
deriving Repr, DecidableEq

/-- The fixed registry path `join(path, "app", "module.ts")`. -/
def appModulePath : String := "app/module.ts"

/-- The fixed registry path `join(path, "config/index.ts")`. -/
def configIndexPath : String := "config/index.ts"

/-- Embedding of `existsSync(join(path, filePath))`: a path exists when a generated file
occupies it or it is one of the registry files present on disk. -/
def existsSync (s : SysState) (p : String) : Bool :=
  s.files.any (fun f => f.1 == p)
    || (p == appModulePath && s.moduleFile.isSome)
    || (p == configIndexPath && s.configIndex.isSome)

/-- The exceptions the generators can throw. -/
inductive CodegenError where
  | alreadyExists (filePath : String)
  | fileNotFound (p : String)
  | classNotFound (n : String)
  | decoratorNotFound (n : String)
  | notKind (k : String)
  | undefinedNode
deriving Repr, DecidableEq

/-- The `message` of each thrown error; the collision error is thrown as
`new Error(filePath + " already exists")`. -/
def CodegenError.message : CodegenError → String
  | .alreadyExists p => p ++ " already exists"
  | .fileNotFound p => "File not found: " ++ p
  | .classNotFound n => "Expected to find class named " ++ n
  | .decoratorNotFound n => "Expected to find decorator named " ++ n
  | .notKind k => "Expected node to be of kind " ++ k
  | .undefinedNode => "Cannot read properties of undefined"

/-- The result of one generator invocation: normal completion, or a thrown
error; both carry the on-disk state at that moment. -/
inductive Outcome where
  | ok (s : SysState)
  | err (e : CodegenError) (s : SysState)
deriving Repr, DecidableEq

/-- The free-form `input` bag forwarded to the template; the generators
themselves read only `input.controllerName` and `input.className`, the rest
is opaque to them. -/
structure InputBag where
  controllerName : String
  className : String
  extra : List (String × String)
deriving Repr, DecidableEq

/-- The `options` record destructured by every generator:
`filePath`, `fileNameWithoutEx`, `input`, and (repository kind) `repoToken`. -/
structure GenOptions where
  filePath : String
  fileNameWithoutEx : String
  input : InputBag
  repoToken : String
deriving Repr, DecidableEq

/-- Embedding of `checkIfFileAlreadyExists(filePath)`: throws
`` `${filePath} already exists` `` when `existsSync` is true. -/
def checkIfFileAlreadyExists (s : SysState) (filePath : String) :
    Option CodegenError :=
  if existsSync s filePath then some (.alreadyExists filePath) else none

/-- The `getProperty(key)` / `Node.isPropertyAssignment` /
`asKindOrThrow(ArrayLiteralExpression)` / `addElement(elem)` step shared by
the controller, service and repository generators, fused into one pass so
the mutated node is exactly the first property `getProperty` finds:
a missing property or a non-`PropertyAssignment` property is silently
skipped (the `if` guard in the source), a `PropertyAssignment` whose
initializer is not an array literal throws, and an array literal gets
`elem` appended. -/
def spliceProp (elem key : String) :
    List PropNode → Except CodegenError (List PropNode)
  | [] => .ok []
  | p :: rest =>
    if p.name == key then
      match p with
      | .propAssign n (.arrayLit xs) =>
          .ok (.propAssign n (.arrayLit (xs ++ [elem])) :: rest)
      | .propAssign _ (.otherExpr _) =>
          .error (.notKind "ArrayLiteralExpression")
      | .otherProp _ => .ok (p :: rest)
    else
      match spliceProp elem key rest with
      | .ok rest' => .ok (p :: rest')
      | .error e => .error e

/-- Embedding of `getArguments()[0]` followed by
`asKindOrThrow(SyntaxKind.ObjectLiteralExpression)`: no argument at all
makes `getArguments()[0]` undefined and the method call on it throw; a
non-object-literal first argument throws `notKind`. -/
def spliceArgs (elem key : String) :
    List DecoratorArg → Except CodegenError (List DecoratorArg)
  | [] => .error .undefinedNode
  | arg :: rest =>
    match arg with
    | .objectLit props =>
      match spliceProp elem key props with
      | .ok props' => .ok (.objectLit props' :: rest)
      | .error e => .error e
    | .otherArg _ => .error (.notKind "ObjectLiteralExpression")

/-- Embedding of `getDecoratorOrThrow("Module")` on the located class, then the argument
step: the first decorator named `Module` is mutated, absence throws. -/
def spliceDecorators (elem key : String) :
    List DecoratorNode → Except CodegenError (List DecoratorNode)
  | [] => .error (.decoratorNotFound "Module")
  | d :: rest =>
    if d.name == "Module" then
      match spliceArgs elem key d.args with
      | .ok args' => .ok ({ d with args := args' } :: rest)
      | .error e => .error e
    else
      match spliceDecorators elem key rest with
      | .ok rest' => .ok (d :: rest')
      | .error e => .error e

/-- Embedding of `getClassOrThrow("AppModule")`, then the decorator step: the first class
named `AppModule` is mutated, absence throws. -/
def spliceClasses (elem key : String) :
    List ClassDecl → Except CodegenError (List ClassDecl)
  | [] => .error (.classNotFound "AppModule")
  | c :: rest =>
    if c.name == "AppModule" then
      match spliceDecorators elem key c.decorators with
      | .ok ds' => .ok ({ c with decorators := ds' } :: rest)
      | .error e => .error e
    else
      match spliceClasses elem key rest with
      | .ok rest' => .ok (c :: rest')
      | .error e => .error e

/-- The whole in-memory registration on `app/module.ts` shared by the
controller, service and repository generators: locate and mutate the array,
then `addImportDeclaration(imp)`; any throw leaves the tree unsaved. -/
def registerInModule (m : ModuleFile) (key elem : String) (imp : ImportDecl) :
    Except CodegenError ModuleFile :=
  match spliceClasses elem key m.classes with
  | .ok cs' => .ok { imports := m.imports ++ [imp], classes := cs' }
  | .error e => .error e

/-- Embedding of `createController(options)`: guard, render the `controller` template,
write and save the new file, then register `input.controllerName` in the
`controllers` array of `app/module.ts` with a named import from
`./controllers/<fileNameWithoutEx>`, and save the module file. -/
def createController (render : String → InputBag → String)
    (options : GenOptions) (s : SysState) : Outcome :=
  match checkIfFileAlreadyExists s options.filePath with
  | some e => .err e s
  | none =>
    let content := render "controller" options.input
    let s1 : SysState := { s with files := s.files ++ [(options.filePath, content)] }
    match s1.moduleFile with
    | none => .err (.fileNotFound appModulePath) s1
    | some m =>
      match registerInModule m "controllers" options.input.controllerName
          ⟨none, [options.input.controllerName],
            "./controllers/" ++ options.fileNameWithoutEx⟩ with
      | .ok m' => .ok { s1 with moduleFile := some m' }
      | .error e => .err e s1

/-- Embedding of `createService(options)`: like the controller generator with the
`service` template, the `providers` array, `input.className`, and a named import
from `./services/<fileNameWithoutEx>`. -/
def createService (render : String → InputBag → String)
    (options : GenOptions) (s : SysState) : Outcome :=
  match checkIfFileAlreadyExists s options.filePath with
  | some e => .err e s
  | none =>
    let content := render "service" options.input
    let s1 : SysState := { s with files := s.files ++ [(options.filePath, content)] }
    match s1.moduleFile with
    | none => .err (.fileNotFound appModulePath) s1
    | some m =>
      match registerInModule m "providers" options.input.className
          ⟨none, [options.input.className],
            "./services/" ++ options.fileNameWithoutEx⟩ with
      | .ok m' => .ok { s1 with moduleFile := some m' }
      | .error e => .err e s1

/-- The provider-binding element text built by `createRepo`:
`` `{ provide: '${repoToken}', useClass: ${input.className}, }` ``, the
token and class name spliced in verbatim. -/
def repoBinding (repoToken className : String) : String :=
  "\x7b provide: '" ++ repoToken ++ "', useClass: " ++ className ++ ", \x7d"

/-- Embedding of `createRepo(options)`: like the service generator with the
`repositoryDB` template, appending the provider-binding text to the
`providers` array, and a named import from
`./repositories/<fileNameWithoutEx>`. -/
def createRepo (render : String → InputBag → String)
    (options : GenOptions) (s : SysState) : Outcome :=
  match checkIfFileAlreadyExists s options.filePath with
  | some e => .err e s
  | none =>
    let content := render "repositoryDB" options.input
    let s1 : SysState := { s with files := s.files ++ [(options.filePath, content)] }
    match s1.moduleFile with
    | none => .err (.fileNotFound appModulePath) s1
    | some m =>
      match registerInModule m "providers"
          (repoBinding options.repoToken options.input.className)
          ⟨none, [options.input.className],
            "./repositories/" ++ options.fileNameWithoutEx⟩ with
      | .ok m' => .ok { s1 with moduleFile := some m' }
      | .error e => .err e s1

/-- Embedding of `createException(options)`: guard, render the `exception` template,
write and save the new file; no registry involvement. -/
def createException (render : String → InputBag → String)
    (options : GenOptions) (s : SysState) : Outcome :=
  match checkIfFileAlreadyExists s options.filePath with
  | some e => .err e s
  | none =>
    let content := render "exception" options.input
    .ok { s with files := s.files ++ [(options.filePath, content)] }

/-- Embedding of `createModel(options)`: guard, render the `model` template, write and
save the new file; no registry involvement. -/
def createModel (render : String → InputBag → String)
    (options : GenOptions) (s : SysState) : Outcome :=
  match checkIfFileAlreadyExists s options.filePath with
  | some e => .err e s
  | none =>
    let content := render "model" options.input
    .ok { s with files := s.files ++ [(options.filePath, content)] }

/-- Embedding of `createConfigFile(options)`: guard, render the `config` template, write
and save the new file, add a default import of the new module to
`config/index.ts` in memory, then look for the default-export assignment:
when absent the function returns before `indexFile.save()` (the import is
never persisted); when present it must be an array literal (else
`asKindOrThrow` throws), `fileNameWithoutEx` is appended to it and the
index file is saved. -/
def createConfigFile (render : String → InputBag → String)
    (options : GenOptions) (s : SysState) : Outcome :=
  match checkIfFileAlreadyExists s options.filePath with
  | some e => .err e s
  | none =>
    let content := render "config" options.input
    let s1 : SysState := { s with files := s.files ++ [(options.filePath, content)] }
    match s1.configIndex with
    | none => .err (.fileNotFound configIndexPath) s1
    | some c =>
      let c1 : ConfigIndexFile :=
        { c with imports := c.imports ++
            [⟨some options.fileNameWithoutEx, [],
              "./" ++ options.fileNameWithoutEx⟩] }
      match c.defaultExport with
      | none => .ok s1
      | some (.arrayLit xs) =>
        let newArr : TsExpr := .arrayLit (xs ++ [options.fileNameWithoutEx])
        let c2 : ConfigIndexFile := { c1 with defaultExport := some newArr }
        .ok { s1 with configIndex := some c2 }
      | some (.otherExpr _) => .err (.notKind "ArrayLiteralExpression") s1

/-! The `Dto` parameter decorator of the validator package. -/

/-- A WebSocket client as the decorator sees it: the `_dto` field the
validation guard stored on it. -/
structure WsClient (α : Type) where
  _dto : α

/-- An HTTP request as the decorator sees it: `dto()` returns the validated
payload. -/
structure HttpRequest (α : Type) where
  dto : α

/-- An execution context: its `contextType` string, and the two transports
reachable through `switchToWs().getClient()` and
`switchToHttp().getRequest()`. -/
structure ExecutionContext (α : Type) where
  contextType : String
  wsClient : WsClient α
  httpRequest : HttpRequest α

/-- The `Dto` parameter decorator body: on a `ws` context return the
client's `_dto`, otherwise return `request.dto()`. -/
def Dto {α : Type} (ctx : ExecutionContext α) : α :=
  if ctx.contextType == "ws" then ctx.wsClient._dto
  else ctx.httpRequest.dto

/-! Specification-side views of the module tree, used to state the
theorems: a module file decomposed around the nodes the ts-morph getters
locate.  The surrounding lists are arbitrary; side conditions in the
theorems say the well-known names do not occur earlier, which is exactly
when the getters (first match) land on the displayed node. -/

/-- A module tree whose first-found `AppModule` class carries a first-found
`Module` decorator whose first argument is the object literal `props`;
`cs₁`/`ds₁` are the earlier classes/decorators, `cs₂`/`ds₂`/`restArgs` the
later siblings. -/
def moduleWithProps (imps : List ImportDecl) (cs₁ cs₂ : List ClassDecl)
    (ds₁ ds₂ : List DecoratorNode) (restArgs : List DecoratorArg)
    (props : List PropNode) : ModuleFile :=
  ⟨imps, cs₁ ++
    ⟨"AppModule", ds₁ ++
      ⟨"Module", .objectLit props :: restArgs⟩ :: ds₂⟩ :: cs₂⟩

/-- Variant of `moduleWithProps` with the property named `key` split out of the
object literal, initialised by `init`; `ps₁`/`ps₂` are the earlier/later
properties. -/
def moduleWith (imps : List ImportDecl) (cs₁ cs₂ : List ClassDecl)
    (ds₁ ds₂ : List DecoratorNode) (restArgs : List DecoratorArg)
    (ps₁ ps₂ : List PropNode) (key : String) (init : TsExpr) : ModuleFile :=
  moduleWithProps imps cs₁ cs₂ ds₁ ds₂ restArgs
    (ps₁ ++ .propAssign key init :: ps₂)

/-- Back-to-back controller generations, each one proceeding only when the
previous one completed normally. -/
def runControllerSeq (render : String → InputBag → String) :
    List GenOptions → SysState → Outcome
  | [], s => .ok s
  | o :: rest, s =>
    match createController render o s with
    | .ok s' => runControllerSeq render rest s'
    | .err e s' => .err e s'

/-- Back-to-back configuration generations, each one proceeding only when
the previous one completed normally. -/
def runConfigSeq (render : String → InputBag → String) :
    List GenOptions → SysState → Outcome
  | [], s => .ok s
  | o :: rest, s =>
    match createConfigFile render o s with
    | .ok s' => runConfigSeq render rest s'
    | .err e s' => .err e s'

/-! Read-only views of the module tree, mirroring the same ts-morph getter
navigation the generators use (`getClassOrThrow("AppModule")`,
`getDecoratorOrThrow("Module")`, `getArguments()[0]`, object literal,
`getProperty(key)`): they return the elements of the array the generators
would append to, and `none` whenever the navigation would not reach a
property assignment holding an array literal. -/

/-- The elements of the first-found property named `key` when it is a
property assignment holding an array literal, `none` otherwise. -/
def propsArray? (key : String) : List PropNode → Option (List String)
  | [] => none
  | p :: rest =>
    if p.name == key then
      match p with
      | .propAssign _ (.arrayLit xs) => some xs
      | _ => none
    else propsArray? key rest

/-- The array read through `getArguments()[0]` when that argument is an
object literal. -/
def argsArray? (key : String) : List DecoratorArg → Option (List String)
  | [] => none
  | arg :: _ =>
    match arg with
    | .objectLit props => propsArray? key props
    | .otherArg _ => none

/-- The array read through the first decorator named `Module`. -/
def decsArray? (key : String) : List DecoratorNode → Option (List String)
  | [] => none
  | d :: rest =>
    if d.name == "Module" then argsArray? key d.args
    else decsArray? key rest

/-- The array read through the first class named `AppModule`. -/
def classesArray? (key : String) : List ClassDecl → Option (List String)
  | [] => none
  | c :: rest =>
    if c.name == "AppModule" then decsArray? key c.decorators
    else classesArray? key rest

/-- The elements of the module registry array named `key`, when the whole
navigation succeeds. -/
def moduleArray? (m : ModuleFile) (key : String) : Option (List String) :=
  classesArray? key m.classes

/-- One generation request against the `app/module.ts` registry, tagged
with its kind. -/
inductive ModuleReq where
  | controller (o : GenOptions)
  | service (o : GenOptions)
  | repo (o : GenOptions)

/-- Back-to-back generations against the module registry, of possibly
mixed kinds, each one proceeding only when the previous one completed
normally. -/
def runModuleSeq (render : String → InputBag → String) :
    List ModuleReq → SysState → Outcome
  | [], s => .ok s
  | .controller o :: rest, s =>
    match createController render o s with
    | .ok s' => runModuleSeq render rest s'
    | .err e s' => .err e s'
  | .service o :: rest, s =>
    match createService render o s with
    | .ok s' => runModuleSeq render rest s'
    | .err e s' => .err e s'
  | .repo o :: rest, s =>
    match createRepo render o s with
    | .ok s' => runModuleSeq render rest s'
    | .err e s' => .err e s'

/-- The elements a request sequence appends to the `controllers` array, in
invocation order: the controller names of its controller requests. -/
def ctrlNames : List ModuleReq → List String
  | [] => []
  | .controller o :: rest => o.input.controllerName :: ctrlNames rest
  | .service _ :: rest => ctrlNames rest
  | .repo _ :: rest => ctrlNames rest

/-- The elements a request sequence appends to the `providers` array, in
invocation order: the class names of its service requests and the
provider-binding texts of its repository requests. -/
def provElems : List ModuleReq → List String
  | [] => []
  | .controller _ :: rest => provElems rest
  | .service o :: rest => o.input.className :: provElems rest
  | .repo o :: rest => repoBinding o.repoToken o.input.className :: provElems rest

/-! Concrete fixtures used by the witnesses and counterexamples. -/

/-- A concrete deterministic renderer standing in for the Eta engine. -/
def rend0 : String → InputBag → String := fun t _ => t ++ " rendered"

/-- A concrete input bag. -/
def bag0 : InputBag := ⟨"WidgetController", "WidgetService", []⟩

/-- A concrete controller generation request. -/
def opts0 : GenOptions := ⟨"controllers/widget.ts", "widget", bag0, "WIDGET_REPO"⟩

/-- A concrete repository generation request. -/
def repoOpts : GenOptions :=
  ⟨"repositories/widget.ts", "widget", ⟨"", "WidgetRepository", []⟩, "WIDGET_REPO"⟩

/-- A concrete service generation request. -/
def svcOpts : GenOptions := ⟨"services/widget.ts", "widget", bag0, ""⟩

/-- The object-literal properties of the healthy concrete module tree. -/
def props0 : List PropNode :=
  [.propAssign "controllers" (.arrayLit ["AppController"]),
   .propAssign "providers" (.arrayLit ["AppService"])]

/-- A concrete `app/module.ts` tree in the expected shape. -/
def mod0 : ModuleFile :=
  ⟨[], [⟨"AppModule", [⟨"Module", [.objectLit props0]⟩]⟩]⟩

/-- A concrete `config/index.ts` tree with a default-export array. -/
def cfg0 : ConfigIndexFile := ⟨[], some (.arrayLit ["app"])⟩

/-- A concrete healthy starting state. -/
def st0 : SysState := ⟨[], some mod0, some cfg0⟩

/-- A starting state where the controller target path is already taken. -/
def stColl : SysState := ⟨[("controllers/widget.ts", "old")], some mod0, some cfg0⟩

/-- A `config/index.ts` tree with an import but no default export. -/
def cfgNoExport : ConfigIndexFile := ⟨[⟨some "app", [], "./app"⟩], none⟩

/-- A state whose config registry lacks the default export. -/
def stNoExport : SysState := ⟨[], none, some cfgNoExport⟩

/-- A concrete configuration generation request. -/
def cfgOpts : GenOptions := ⟨"config/database.ts", "database", bag0, ""⟩

/-- A concrete exception generation request. -/
def excOpts : GenOptions := ⟨"exceptions/notFound.ts", "notFound", bag0, ""⟩

/-- A module tree whose `@Module({...})` object literal has no `providers`
property at all. -/
def modNoProviders : ModuleFile :=
  ⟨[], [⟨"AppModule", [⟨"Module",
    [.objectLit [.propAssign "controllers" (.arrayLit [])]]⟩]⟩]⟩

/-- A state holding `modNoProviders` as the module registry. -/
def stNoProviders : SysState := ⟨[], some modNoProviders, some cfg0⟩

/-- A module tree whose `controllers` property is a property assignment
initialised by something that is not an array literal. -/
def modBadShape : ModuleFile :=
  ⟨[], [⟨"AppModule", [⟨"Module",
    [.objectLit [.propAssign "controllers" (.otherExpr "controllersRef")]]⟩]⟩]⟩

/-- A state holding `modBadShape` as the module registry. -/
def stBadShape : SysState := ⟨[], some modBadShape, none⟩

/-- A module registry file with no class declarations at all. -/
def stNoClass : SysState := ⟨[], some ⟨[], []⟩, none⟩

/-- A concrete mixed request sequence against the module registry: one
controller, one service, one repository. -/
def mixReqs : List ModuleReq := [.controller opts0, .service svcOpts, .repo repoOpts]

/-- The state after the three generations of the mixed-sequence witness. -/
def stMix : SysState :=
  ⟨[("controllers/widget.ts", "controller rendered"),
    ("services/widget.ts", "service rendered"),
    ("repositories/widget.ts", "repositoryDB rendered")],
   some ⟨[⟨none, ["WidgetController"], "./controllers/widget"⟩,
          ⟨none, ["WidgetService"], "./services/widget"⟩,
          ⟨none, ["WidgetRepository"], "./repositories/widget"⟩],
         [⟨"AppModule", [⟨"Module",
           [.objectLit
             [.propAssign "controllers"
               (.arrayLit ["AppController", "WidgetController"]),
              .propAssign "providers"
               (.arrayLit ["AppService", "WidgetService",
                 "\x7b provide: 'WIDGET_REPO', useClass: WidgetRepository, \x7d"])]]⟩]⟩]⟩,
   some cfg0⟩

/-- A concrete `ws` execution context. -/
def ctxWs : ExecutionContext Nat := ⟨"ws", ⟨7⟩, ⟨9⟩⟩

/-- A concrete `http` execution context. -/
def ctxHttp : ExecutionContext Nat := ⟨"http", ⟨7⟩, ⟨9⟩⟩

/-! Helper lemmas shared by several claim theorems. -/

/-- Lemma: `spliceProp` leaves the property list unchanged when no property bears
the key: `getProperty` finds nothing, the `if` guard skips the append. -/
theorem spliceProp_not_found (elem key : String) :
    ∀ ps : List PropNode, (∀ p ∈ ps, p.name ≠ key) →
      spliceProp elem key ps = .ok ps := by
  intro ps
  induction ps with
  | nil => intro _; rfl
  | cons p rest ih =>
    intro h
    have hp : (p.name == key) = false :=
      beq_eq_false_iff_ne.mpr (h p (List.mem_cons_self p rest))
    simp [spliceProp, hp, ih (fun q hq => h q (List.mem_cons_of_mem p hq))]

/-- Lemma: `spliceProp` appends `elem` to the first-found property assignment with
an array-literal initializer and touches nothing else. -/
theorem spliceProp_found_array (elem key : String) (xs : List String)
    (ps₂ : List PropNode) :
    ∀ ps₁ : List PropNode, (∀ p ∈ ps₁, p.name ≠ key) →
      spliceProp elem key (ps₁ ++ .propAssign key (.arrayLit xs) :: ps₂)
        = .ok (ps₁ ++ .propAssign key (.arrayLit (xs ++ [elem])) :: ps₂) := by
  intro ps₁
  induction ps₁ with
  | nil => intro _; simp [spliceProp, PropNode.name]
  | cons p rest ih =>
    intro h
    have hp : (p.name == key) = false :=
      beq_eq_false_iff_ne.mpr (h p (List.mem_cons_self p rest))
    simp [spliceProp, hp, ih (fun q hq => h q (List.mem_cons_of_mem p hq))]

/-- Lemma: `spliceProp` throws the `asKindOrThrow` error when the first-found
property assignment is not initialised by an array literal. -/
theorem spliceProp_found_notArray (elem key t : String) (ps₂ : List PropNode) :
    ∀ ps₁ : List PropNode, (∀ p ∈ ps₁, p.name ≠ key) →
      spliceProp elem key (ps₁ ++ .propAssign key (.otherExpr t) :: ps₂)
        = .error (.notKind "ArrayLiteralExpression") := by
  intro ps₁
  induction ps₁ with
  | nil => intro _; simp [spliceProp, PropNode.name]
  | cons p rest ih =>
    intro h
    have hp : (p.name == key) = false :=
      beq_eq_false_iff_ne.mpr (h p (List.mem_cons_self p rest))
    simp [spliceProp, hp, ih (fun q hq => h q (List.mem_cons_of_mem p hq))]

/-- Lemma: `spliceArgs` on an object-literal first argument defers to
`spliceProp`. -/
theorem spliceArgs_objectLit (elem key : String) (props : List PropNode)
    (restArgs : List DecoratorArg) :
    spliceArgs elem key (.objectLit props :: restArgs)
      = match spliceProp elem key props with
        | .ok props' => .ok (.objectLit props' :: restArgs)
        | .error e => .error e := rfl

/-- Lemma: `spliceDecorators` rewrites the first decorator named `Module` through
`spliceArgs` and keeps every other decorator as it was. -/
theorem spliceDecorators_found (elem key : String) (args : List DecoratorArg)
    (ds₂ : List DecoratorNode) :
    ∀ ds₁ : List DecoratorNode, (∀ d ∈ ds₁, d.name ≠ "Module") →
      spliceDecorators elem key (ds₁ ++ ⟨"Module", args⟩ :: ds₂)
        = match spliceArgs elem key args with
          | .ok args' => .ok (ds₁ ++ ⟨"Module", args'⟩ :: ds₂)
          | .error e => .error e := by
  intro ds₁
  induction ds₁ with
  | nil =>
    intro _
    cases hA : spliceArgs elem key args with
    | ok args' => simp [spliceDecorators, hA]
    | error e => simp [spliceDecorators, hA]
  | cons d rest ih =>
    intro h
    have hd : (d.name == "Module") = false :=
      beq_eq_false_iff_ne.mpr (h d (List.mem_cons_self d rest))
    have ih' := ih (fun q hq => h q (List.mem_cons_of_mem d hq))
    cases hA : spliceArgs elem key args with
    | ok args' =>
      simp only [hA] at ih'
      simp [spliceDecorators, hd, hA, ih']
    | error e =>
      simp only [hA] at ih'
      simp [spliceDecorators, hd, hA, ih']

/-- Lemma: `spliceClasses` rewrites the first class named `AppModule` through
`spliceDecorators` and keeps every other class as it was. -/
theorem spliceClasses_found (elem key : String) (ds : List DecoratorNode)
    (cs₂ : List ClassDecl) :
    ∀ cs₁ : List ClassDecl, (∀ c ∈ cs₁, c.name ≠ "AppModule") →
      spliceClasses elem key (cs₁ ++ ⟨"AppModule", ds⟩ :: cs₂)
        = match spliceDecorators elem key ds with
          | .ok ds' => .ok (cs₁ ++ ⟨"AppModule", ds'⟩ :: cs₂)
          | .error e => .error e := by
  intro cs₁
  induction cs₁ with
  | nil =>
    intro _
    cases hD : spliceDecorators elem key ds with
    | ok ds' => simp [spliceClasses, hD]
    | error e => simp [spliceClasses, hD]
  | cons c rest ih =>
    intro h
    have hc : (c.name == "AppModule") = false :=
      beq_eq_false_iff_ne.mpr (h c (List.mem_cons_self c rest))
    have ih' := ih (fun q hq => h q (List.mem_cons_of_mem c hq))
    cases hD : spliceDecorators elem key ds with
    | ok ds' =>
      simp only [hD] at ih'
      simp [spliceClasses, hc, hD, ih']
    | error e =>
      simp only [hD] at ih'
      simp [spliceClasses, hc, hD, ih']

/-- The registration step on a decomposed module tree is the `spliceProp`
action on the object literal, plus one appended import, with everything
else in the tree untouched. -/
theorem registerInModule_props (key elem : String) (imp : ImportDecl)
    (imps : List ImportDecl) (cs₁ cs₂ : List ClassDecl)
    (ds₁ ds₂ : List DecoratorNode) (restArgs : List DecoratorArg)
    (props : List PropNode)
    (hc : ∀ c ∈ cs₁, c.name ≠ "AppModule")
    (hd : ∀ d ∈ ds₁, d.name ≠ "Module") :
    registerInModule (moduleWithProps imps cs₁ cs₂ ds₁ ds₂ restArgs props)
        key elem imp
      = match spliceProp elem key props with
        | .ok props' =>
            .ok (moduleWithProps (imps ++ [imp]) cs₁ cs₂ ds₁ ds₂ restArgs props')
        | .error e => .error e := by
  unfold registerInModule moduleWithProps
  rw [spliceClasses_found elem key
    (ds₁ ++ ⟨"Module", .objectLit props :: restArgs⟩ :: ds₂) cs₂ cs₁ hc]
  rw [spliceDecorators_found elem key (.objectLit props :: restArgs) ds₂ ds₁ hd]
  rw [spliceArgs_objectLit]
  cases hP : spliceProp elem key props with
  | ok props' => simp [hP]
  | error e => simp [hP]

/-- Lemma: when the first-found property named `key` holds an array
literal, `spliceProp` succeeds, the read of `key` gains exactly the
appended element, and the read of every other key is unchanged. -/
theorem propsArray_spliceProp (elem key : String) :
    ∀ (props : List PropNode) (xs : List String),
      propsArray? key props = some xs →
      ∃ props', spliceProp elem key props = .ok props'
        ∧ propsArray? key props' = some (xs ++ [elem])
        ∧ ∀ k, k ≠ key → propsArray? k props' = propsArray? k props := by
  intro props
  induction props with
  | nil =>
    intro xs h
    simp [propsArray?] at h
  | cons p rest ih =>
    intro xs h
    by_cases hpk : (p.name == key) = true
    · cases p with
      | propAssign n init =>
        simp only [PropNode.name] at hpk
        cases init with
        | arrayLit ys =>
          have hxs : ys = xs := by
            simpa [propsArray?, PropNode.name, hpk] using h
          subst hxs
          refine ⟨.propAssign n (.arrayLit (ys ++ [elem])) :: rest, ?_, ?_, ?_⟩
          · simp [spliceProp, PropNode.name, hpk]
          · simp [propsArray?, PropNode.name, hpk]
          · intro k hk
            have hnk : (n == k) = false := by
              have : n = key := by simpa using hpk
              subst this
              exact beq_eq_false_iff_ne.mpr (fun hkk => hk hkk.symm)
            simp [propsArray?, PropNode.name, hnk]
        | otherExpr t =>
          simp [propsArray?, PropNode.name, hpk] at h
      | otherProp n =>
        simp only [PropNode.name] at hpk
        simp [propsArray?, PropNode.name, hpk] at h
    · have hpk' : (p.name == key) = false := by simpa using hpk
      have h' : propsArray? key rest = some xs := by
        simpa [propsArray?, hpk'] using h
      obtain ⟨rest', h1, h2, h3⟩ := ih xs h'
      refine ⟨p :: rest', ?_, ?_, ?_⟩
      · simp [spliceProp, hpk', h1]
      · simp [propsArray?, hpk', h2]
      · intro k hk
        by_cases hpkk : (p.name == k) = true
        · simp [propsArray?, hpkk]
        · have hpkk' : (p.name == k) = false := by simpa using hpkk
          simp [propsArray?, hpkk', h3 k hk]

/-- Lemma: the same correspondence through `getArguments()[0]`. -/
theorem argsArray_spliceArgs (elem key : String) (args : List DecoratorArg)
    (xs : List String) (h : argsArray? key args = some xs) :
    ∃ args', spliceArgs elem key args = .ok args'
      ∧ argsArray? key args' = some (xs ++ [elem])
      ∧ ∀ k, k ≠ key → argsArray? k args' = argsArray? k args := by
  cases args with
  | nil => simp [argsArray?] at h
  | cons arg rest =>
    cases arg with
    | objectLit props =>
      have h' : propsArray? key props = some xs := by
        simpa [argsArray?] using h
      obtain ⟨props', h1, h2, h3⟩ := propsArray_spliceProp elem key props xs h'
      refine ⟨.objectLit props' :: rest, ?_, ?_, ?_⟩
      · simp [spliceArgs, h1]
      · simp [argsArray?, h2]
      · intro k hk
        simp [argsArray?, h3 k hk]
    | otherArg t => simp [argsArray?] at h

/-- Lemma: the same correspondence through the first decorator named
`Module`. -/
theorem decsArray_spliceDecorators (elem key : String) :
    ∀ (ds : List DecoratorNode) (xs : List String),
      decsArray? key ds = some xs →
      ∃ ds', spliceDecorators elem key ds = .ok ds'
        ∧ decsArray? key ds' = some (xs ++ [elem])
        ∧ ∀ k, k ≠ key → decsArray? k ds' = decsArray? k ds := by
  intro ds
  induction ds with
  | nil =>
    intro xs h
    simp [decsArray?] at h
  | cons d rest ih =>
    intro xs h
    by_cases hdm : (d.name == "Module") = true
    · have h' : argsArray? key d.args = some xs := by
        simpa [decsArray?, hdm] using h
      obtain ⟨args', h1, h2, h3⟩ := argsArray_spliceArgs elem key d.args xs h'
      refine ⟨{ d with args := args' } :: rest, ?_, ?_, ?_⟩
      · simp [spliceDecorators, hdm, h1]
      · simp [decsArray?, hdm, h2]
      · intro k hk
        simp [decsArray?, hdm, h3 k hk]
    · have hdm' : (d.name == "Module") = false := by simpa using hdm
      have h' : decsArray? key rest = some xs := by
        simpa [decsArray?, hdm'] using h
      obtain ⟨rest', h1, h2, h3⟩ := ih xs h'
      refine ⟨d :: rest', ?_, ?_, ?_⟩
      · simp [spliceDecorators, hdm', h1]
      · simp [decsArray?, hdm', h2]
      · intro k hk
        simp [decsArray?, hdm', h3 k hk]

/-- Lemma: the same correspondence through the first class named
`AppModule`. -/
theorem classesArray_spliceClasses (elem key : String) :
    ∀ (cs : List ClassDecl) (xs : List String),
      classesArray? key cs = some xs →
      ∃ cs', spliceClasses elem key cs = .ok cs'
        ∧ classesArray? key cs' = some (xs ++ [elem])
        ∧ ∀ k, k ≠ key → classesArray? k cs' = classesArray? k cs := by
  intro cs
  induction cs with
  | nil =>
    intro xs h
    simp [classesArray?] at h
  | cons c rest ih =>
    intro xs h
    by_cases hca : (c.name == "AppModule") = true
    · have h' : decsArray? key c.decorators = some xs := by
        simpa [classesArray?, hca] using h
      obtain ⟨ds', h1, h2, h3⟩ := decsArray_spliceDecorators elem key c.decorators xs h'
      refine ⟨{ c with decorators := ds' } :: rest, ?_, ?_, ?_⟩
      · simp [spliceClasses, hca, h1]
      · simp [classesArray?, hca, h2]
      · intro k hk
        simp [classesArray?, hca, h3 k hk]
    · have hca' : (c.name == "AppModule") = false := by simpa using hca
      have h' : classesArray? key rest = some xs := by
        simpa [classesArray?, hca'] using h
      obtain ⟨rest', h1, h2, h3⟩ := ih xs h'
      refine ⟨c :: rest', ?_, ?_, ?_⟩
      · simp [spliceClasses, hca', h1]
      · simp [classesArray?, hca', h2]
      · intro k hk
        simp [classesArray?, hca', h3 k hk]

/-- Lemma: when the read of `key` succeeds, registration succeeds, appends
exactly one import, appends exactly `elem` to the `key` array, and leaves
the read of every other key unchanged. -/
theorem registerInModule_read (m : ModuleFile) (key elem : String)
    (imp : ImportDecl) (xs : List String)
    (h : moduleArray? m key = some xs) :
    ∃ m', registerInModule m key elem imp = .ok m'
      ∧ m'.imports = m.imports ++ [imp]
      ∧ moduleArray? m' key = some (xs ++ [elem])
      ∧ ∀ k, k ≠ key → moduleArray? m' k = moduleArray? m k := by
  obtain ⟨cs', h1, h2, h3⟩ := classesArray_spliceClasses elem key m.classes xs h
  refine ⟨⟨m.imports ++ [imp], cs'⟩, ?_, rfl, ?_, ?_⟩
  · simp [registerInModule, h1]
  · simpa [moduleArray?] using h2
  · intro k hk
    simpa [moduleArray?] using h3 k hk

/-- Lemma: `createController` after a passing guard, expressed through the
registration step on the module tree found on disk. -/
theorem createController_cases (render : String → InputBag → String)
    (options : GenOptions) (s : SysState) (m : ModuleFile)
    (hg : existsSync s options.filePath = false)
    (hm : s.moduleFile = some m) :
    createController render options s
      = match registerInModule m "controllers" options.input.controllerName
          ⟨none, [options.input.controllerName],
            "./controllers/" ++ options.fileNameWithoutEx⟩ with
        | .ok m' =>
            .ok ⟨s.files ++ [(options.filePath, render "controller" options.input)],
              some m', s.configIndex⟩
        | .error e =>
            .err e ⟨s.files ++ [(options.filePath, render "controller" options.input)],
              s.moduleFile, s.configIndex⟩ := by
  unfold createController checkIfFileAlreadyExists
  cases hr : registerInModule m "controllers" options.input.controllerName
      ⟨none, [options.input.controllerName],
        "./controllers/" ++ options.fileNameWithoutEx⟩ with
  | ok m' => simp [hg, hm, hr]
  | error e => simp [hg, hm, hr]

/-- Lemma: `createService` after a passing guard, expressed through the
registration step on the module tree found on disk. -/
theorem createService_cases (render : String → InputBag → String)
    (options : GenOptions) (s : SysState) (m : ModuleFile)
    (hg : existsSync s options.filePath = false)
    (hm : s.moduleFile = some m) :
    createService render options s
      = match registerInModule m "providers" options.input.className
          ⟨none, [options.input.className],
            "./services/" ++ options.fileNameWithoutEx⟩ with
        | .ok m' =>
            .ok ⟨s.files ++ [(options.filePath, render "service" options.input)],
              some m', s.configIndex⟩
        | .error e =>
            .err e ⟨s.files ++ [(options.filePath, render "service" options.input)],
              s.moduleFile, s.configIndex⟩ := by
  unfold createService checkIfFileAlreadyExists
  cases hr : registerInModule m "providers" options.input.className
      ⟨none, [options.input.className],
        "./services/" ++ options.fileNameWithoutEx⟩ with
  | ok m' => simp [hg, hm, hr]
  | error e => simp [hg, hm, hr]

/-- Lemma: `createRepo` after a passing guard, expressed through the
registration step on the module tree found on disk. -/
theorem createRepo_cases (render : String → InputBag → String)
    (options : GenOptions) (s : SysState) (m : ModuleFile)
    (hg : existsSync s options.filePath = false)
    (hm : s.moduleFile = some m) :
    createRepo render options s
      = match registerInModule m "providers"
          (repoBinding options.repoToken options.input.className)
          ⟨none, [options.input.className],
            "./repositories/" ++ options.fileNameWithoutEx⟩ with
        | .ok m' =>
            .ok ⟨s.files ++ [(options.filePath, render "repositoryDB" options.input)],
              some m', s.configIndex⟩
        | .error e =>
            .err e ⟨s.files ++ [(options.filePath, render "repositoryDB" options.input)],
              s.moduleFile, s.configIndex⟩ := by
  unfold createRepo checkIfFileAlreadyExists
  cases hr : registerInModule m "providers"
      (repoBinding options.repoToken options.input.className)
      ⟨none, [options.input.className],
        "./repositories/" ++ options.fileNameWithoutEx⟩ with
  | ok m' => simp [hg, hm, hr]
  | error e => simp [hg, hm, hr]

/-- Lemma: `createController` on a guard-passing state with a decomposed module
registry: the outcome is the `spliceProp` action on the object literal,
one new file, one appended import. -/
theorem createController_decomp (render : String → InputBag → String)
    (options : GenOptions) (s : SysState)
    (imps : List ImportDecl) (cs₁ cs₂ : List ClassDecl)
    (ds₁ ds₂ : List DecoratorNode) (restArgs : List DecoratorArg)
    (props : List PropNode)
    (hg : existsSync s options.filePath = false)
    (hm : s.moduleFile = some (moduleWithProps imps cs₁ cs₂ ds₁ ds₂ restArgs props))
    (hc : ∀ c ∈ cs₁, c.name ≠ "AppModule")
    (hd : ∀ d ∈ ds₁, d.name ≠ "Module") :
    createController render options s
      = match spliceProp options.input.controllerName "controllers" props with
        | .ok props' =>
            .ok ⟨s.files ++ [(options.filePath, render "controller" options.input)],
              some (moduleWithProps
                (imps ++ [⟨none, [options.input.controllerName],
                  "./controllers/" ++ options.fileNameWithoutEx⟩])
                cs₁ cs₂ ds₁ ds₂ restArgs props'),
              s.configIndex⟩
        | .error e =>
            .err e ⟨s.files ++ [(options.filePath, render "controller" options.input)],
              s.moduleFile, s.configIndex⟩ := by
  have hreg := registerInModule_props "controllers" options.input.controllerName
    ⟨none, [options.input.controllerName],
      "./controllers/" ++ options.fileNameWithoutEx⟩
    imps cs₁ cs₂ ds₁ ds₂ restArgs props hc hd
  unfold createController checkIfFileAlreadyExists
  cases hP : spliceProp options.input.controllerName "controllers" props with
  | ok props' =>
    simp only [hP] at hreg
    simp [hg, hm, hreg]
  | error e =>
    simp only [hP] at hreg
    simp [hg, hm, hreg]

/-- Lemma: `createService` on a guard-passing state with a decomposed module
registry. -/
theorem createService_decomp (render : String → InputBag → String)
    (options : GenOptions) (s : SysState)
    (imps : List ImportDecl) (cs₁ cs₂ : List ClassDecl)
    (ds₁ ds₂ : List DecoratorNode) (restArgs : List DecoratorArg)
    (props : List PropNode)
    (hg : existsSync s options.filePath = false)
    (hm : s.moduleFile = some (moduleWithProps imps cs₁ cs₂ ds₁ ds₂ restArgs props))
    (hc : ∀ c ∈ cs₁, c.name ≠ "AppModule")
    (hd : ∀ d ∈ ds₁, d.name ≠ "Module") :
    createService render options s
      = match spliceProp options.input.className "providers" props with
        | .ok props' =>
            .ok ⟨s.files ++ [(options.filePath, render "service" options.input)],
              some (moduleWithProps
                (imps ++ [⟨none, [options.input.className],
                  "./services/" ++ options.fileNameWithoutEx⟩])
                cs₁ cs₂ ds₁ ds₂ restArgs props'),
              s.configIndex⟩
        | .error e =>
            .err e ⟨s.files ++ [(options.filePath, render "service" options.input)],
              s.moduleFile, s.configIndex⟩ := by
  have hreg := registerInModule_props "providers" options.input.className
    ⟨none, [options.input.className],
      "./services/" ++ options.fileNameWithoutEx⟩
    imps cs₁ cs₂ ds₁ ds₂ restArgs props hc hd
  unfold createService checkIfFileAlreadyExists
  cases hP : spliceProp options.input.className "providers" props with
  | ok props' =>
    simp only [hP] at hreg
    simp [hg, hm, hreg]
  | error e =>
    simp only [hP] at hreg
    simp [hg, hm, hreg]

/-- Lemma: `createRepo` on a guard-passing state with a decomposed module
registry; the appended element is the provider-binding text. -/
theorem createRepo_decomp (render : String → InputBag → String)
    (options : GenOptions) (s : SysState)
    (imps : List ImportDecl) (cs₁ cs₂ : List ClassDecl)
    (ds₁ ds₂ : List DecoratorNode) (restArgs : List DecoratorArg)
    (props : List PropNode)
    (hg : existsSync s options.filePath = false)
    (hm : s.moduleFile = some (moduleWithProps imps cs₁ cs₂ ds₁ ds₂ restArgs props))
    (hc : ∀ c ∈ cs₁, c.name ≠ "AppModule")
    (hd : ∀ d ∈ ds₁, d.name ≠ "Module") :
    createRepo render options s
      = match spliceProp (repoBinding options.repoToken options.input.className)
            "providers" props with
        | .ok props' =>
            .ok ⟨s.files ++ [(options.filePath, render "repositoryDB" options.input)],
              some (moduleWithProps
                (imps ++ [⟨none, [options.input.className],
                  "./repositories/" ++ options.fileNameWithoutEx⟩])
                cs₁ cs₂ ds₁ ds₂ restArgs props'),
              s.configIndex⟩
        | .error e =>
            .err e ⟨s.files ++ [(options.filePath, render "repositoryDB" options.input)],
              s.moduleFile, s.configIndex⟩ := by
  have hreg := registerInModule_props "providers"
    (repoBinding options.repoToken options.input.className)
    ⟨none, [options.input.className],
      "./repositories/" ++ options.fileNameWithoutEx⟩
    imps cs₁ cs₂ ds₁ ds₂ restArgs props hc hd
  unfold createRepo checkIfFileAlreadyExists
  cases hP : spliceProp (repoBinding options.repoToken options.input.className)
      "providers" props with
  | ok props' =>
    simp only [hP] at hreg
    simp [hg, hm, hreg]
  | error e =>
    simp only [hP] at hreg
    simp [hg, hm, hreg]

/-- Lemma: `createConfigFile` on a guard-passing state whose registry has the
default-export array: one new file, one appended import, one appended
element. -/
theorem createConfigFile_with_export (render : String → InputBag → String)
    (options : GenOptions) (s : SysState)
    (imps : List ImportDecl) (xs : List String)
    (hg : existsSync s options.filePath = false)
    (hc : s.configIndex = some ⟨imps, some (.arrayLit xs)⟩) :
    createConfigFile render options s
      = .ok ⟨s.files ++ [(options.filePath, render "config" options.input)],
          s.moduleFile,
          some ⟨imps ++ [⟨some options.fileNameWithoutEx, [],
              "./" ++ options.fileNameWithoutEx⟩],
            some (.arrayLit (xs ++ [options.fileNameWithoutEx]))⟩⟩ := by
  unfold createConfigFile checkIfFileAlreadyExists
  simp [hg, hc]

/-- Success shape for `createController` when the first-found `controllers`
property is a property assignment holding an array literal. -/
theorem createController_ok_shape (render : String → InputBag → String)
    (options : GenOptions) (s : SysState)
    (imps : List ImportDecl) (cs₁ cs₂ : List ClassDecl)
    (ds₁ ds₂ : List DecoratorNode) (restArgs : List DecoratorArg)
    (ps₁ ps₂ : List PropNode) (xs : List String)
    (hg : existsSync s options.filePath = false)
    (hm : s.moduleFile = some (moduleWith imps cs₁ cs₂ ds₁ ds₂ restArgs
      ps₁ ps₂ "controllers" (.arrayLit xs)))
    (hc : ∀ c ∈ cs₁, c.name ≠ "AppModule")
    (hd : ∀ d ∈ ds₁, d.name ≠ "Module")
    (hp : ∀ p ∈ ps₁, p.name ≠ "controllers") :
    createController render options s
      = .ok ⟨s.files ++ [(options.filePath, render "controller" options.input)],
          some (moduleWith
            (imps ++ [⟨none, [options.input.controllerName],
              "./controllers/" ++ options.fileNameWithoutEx⟩])
            cs₁ cs₂ ds₁ ds₂ restArgs ps₁ ps₂ "controllers"
            (.arrayLit (xs ++ [options.input.controllerName]))),
          s.configIndex⟩ := by
  have h := createController_decomp render options s imps cs₁ cs₂ ds₁ ds₂ restArgs
    (ps₁ ++ .propAssign "controllers" (.arrayLit xs) :: ps₂) hg hm hc hd
  rw [spliceProp_found_array options.input.controllerName "controllers" xs ps₂ ps₁ hp] at h
  simpa [moduleWith] using h

/-- Success shape for `createService` when the first-found `providers`
property is a property assignment holding an array literal. -/
theorem createService_ok_shape (render : String → InputBag → String)
    (options : GenOptions) (s : SysState)
    (imps : List ImportDecl) (cs₁ cs₂ : List ClassDecl)
    (ds₁ ds₂ : List DecoratorNode) (restArgs : List DecoratorArg)
    (ps₁ ps₂ : List PropNode) (xs : List String)
    (hg : existsSync s options.filePath = false)
    (hm : s.moduleFile = some (moduleWith imps cs₁ cs₂ ds₁ ds₂ restArgs
      ps₁ ps₂ "providers" (.arrayLit xs)))
    (hc : ∀ c ∈ cs₁, c.name ≠ "AppModule")
    (hd : ∀ d ∈ ds₁, d.name ≠ "Module")
    (hp : ∀ p ∈ ps₁, p.name ≠ "providers") :
    createService render options s
      = .ok ⟨s.files ++ [(options.filePath, render "service" options.input)],
          some (moduleWith
            (imps ++ [⟨none, [options.input.className],
              "./services/" ++ options.fileNameWithoutEx⟩])
            cs₁ cs₂ ds₁ ds₂ restArgs ps₁ ps₂ "providers"
            (.arrayLit (xs ++ [options.input.className]))),
          s.configIndex⟩ := by
  have h := createService_decomp render options s imps cs₁ cs₂ ds₁ ds₂ restArgs
    (ps₁ ++ .propAssign "providers" (.arrayLit xs) :: ps₂) hg hm hc hd
  rw [spliceProp_found_array options.input.className "providers" xs ps₂ ps₁ hp] at h
  simpa [moduleWith] using h

/-- Success shape for `createRepo` when the first-found `providers`
property is a property assignment holding an array literal. -/
theorem createRepo_ok_shape (render : String → InputBag → String)
    (options : GenOptions) (s : SysState)
    (imps : List ImportDecl) (cs₁ cs₂ : List ClassDecl)
    (ds₁ ds₂ : List DecoratorNode) (restArgs : List DecoratorArg)
    (ps₁ ps₂ : List PropNode) (xs : List String)
    (hg : existsSync s options.filePath = false)
    (hm : s.moduleFile = some (moduleWith imps cs₁ cs₂ ds₁ ds₂ restArgs
      ps₁ ps₂ "providers" (.arrayLit xs)))
    (hc : ∀ c ∈ cs₁, c.name ≠ "AppModule")
    (hd : ∀ d ∈ ds₁, d.name ≠ "Module")
    (hp : ∀ p ∈ ps₁, p.name ≠ "providers") :
    createRepo render options s
      = .ok ⟨s.files ++ [(options.filePath, render "repositoryDB" options.input)],
          some (moduleWith
            (imps ++ [⟨none, [options.input.className],
              "./repositories/" ++ options.fileNameWithoutEx⟩])
            cs₁ cs₂ ds₁ ds₂ restArgs ps₁ ps₂ "providers"
            (.arrayLit (xs ++
              [repoBinding options.repoToken options.input.className]))),
          s.configIndex⟩ := by
  have h := createRepo_decomp render options s imps cs₁ cs₂ ds₁ ds₂ restArgs
    (ps₁ ++ .propAssign "providers" (.arrayLit xs) :: ps₂) hg hm hc hd
  rw [spliceProp_found_array (repoBinding options.repoToken options.input.className)
    "providers" xs ps₂ ps₁ hp] at h
  simpa [moduleWith] using h

/-- Lemma: `createController` when the first-found `controllers` property is not
an array literal: the `asKindOrThrow` error is thrown after the new file
was saved and before the module file is saved. -/
theorem createController_notArray (render : String → InputBag → String)
    (options : GenOptions) (s : SysState)
    (imps : List ImportDecl) (cs₁ cs₂ : List ClassDecl)
    (ds₁ ds₂ : List DecoratorNode) (restArgs : List DecoratorArg)
    (ps₁ ps₂ : List PropNode) (t : String)
    (hg : existsSync s options.filePath = false)
    (hm : s.moduleFile = some (moduleWith imps cs₁ cs₂ ds₁ ds₂ restArgs
      ps₁ ps₂ "controllers" (.otherExpr t)))
    (hc : ∀ c ∈ cs₁, c.name ≠ "AppModule")
    (hd : ∀ d ∈ ds₁, d.name ≠ "Module")
    (hp : ∀ p ∈ ps₁, p.name ≠ "controllers") :
    createController render options s
      = .err (.notKind "ArrayLiteralExpression")
          ⟨s.files ++ [(options.filePath, render "controller" options.input)],
            s.moduleFile, s.configIndex⟩ := by
  have h := createController_decomp render options s imps cs₁ cs₂ ds₁ ds₂ restArgs
    (ps₁ ++ .propAssign "controllers" (.otherExpr t) :: ps₂) hg hm hc hd
  rw [spliceProp_found_notArray options.input.controllerName "controllers" t ps₂ ps₁ hp] at h
  simpa [moduleWith] using h

/-- Lemma: `createService` when the first-found `providers` property is not an
array literal. -/
theorem createService_notArray (render : String → InputBag → String)
    (options : GenOptions) (s : SysState)
    (imps : List ImportDecl) (cs₁ cs₂ : List ClassDecl)
    (ds₁ ds₂ : List DecoratorNode) (restArgs : List DecoratorArg)
    (ps₁ ps₂ : List PropNode) (t : String)
    (hg : existsSync s options.filePath = false)
    (hm : s.moduleFile = some (moduleWith imps cs₁ cs₂ ds₁ ds₂ restArgs
      ps₁ ps₂ "providers" (.otherExpr t)))
    (hc : ∀ c ∈ cs₁, c.name ≠ "AppModule")
    (hd : ∀ d ∈ ds₁, d.name ≠ "Module")
    (hp : ∀ p ∈ ps₁, p.name ≠ "providers") :
    createService render options s
      = .err (.notKind "ArrayLiteralExpression")
          ⟨s.files ++ [(options.filePath, render "service" options.input)],
            s.moduleFile, s.configIndex⟩ := by
  have h := createService_decomp render options s imps cs₁ cs₂ ds₁ ds₂ restArgs
    (ps₁ ++ .propAssign "providers" (.otherExpr t) :: ps₂) hg hm hc hd
  rw [spliceProp_found_notArray options.input.className "providers" t ps₂ ps₁ hp] at h
  simpa [moduleWith] using h

/-- Lemma: `createRepo` when the first-found `providers` property is not an array
literal. -/
theorem createRepo_notArray (render : String → InputBag → String)
    (options : GenOptions) (s : SysState)
    (imps : List ImportDecl) (cs₁ cs₂ : List ClassDecl)
    (ds₁ ds₂ : List DecoratorNode) (restArgs : List DecoratorArg)
    (ps₁ ps₂ : List PropNode) (t : String)
    (hg : existsSync s options.filePath = false)
    (hm : s.moduleFile = some (moduleWith imps cs₁ cs₂ ds₁ ds₂ restArgs
      ps₁ ps₂ "providers" (.otherExpr t)))
    (hc : ∀ c ∈ cs₁, c.name ≠ "AppModule")
    (hd : ∀ d ∈ ds₁, d.name ≠ "Module")
    (hp : ∀ p ∈ ps₁, p.name ≠ "providers") :
    createRepo render options s
      = .err (.notKind "ArrayLiteralExpression")
          ⟨s.files ++ [(options.filePath, render "repositoryDB" options.input)],
            s.moduleFile, s.configIndex⟩ := by
  have h := createRepo_decomp render options s imps cs₁ cs₂ ds₁ ds₂ restArgs
    (ps₁ ++ .propAssign "providers" (.otherExpr t) :: ps₂) hg hm hc hd
  rw [spliceProp_found_notArray (repoBinding options.repoToken options.input.className)
    "providers" t ps₂ ps₁ hp] at h
  simpa [moduleWith] using h

/-- Lemma: `createController` when no property of the object literal is named
`controllers`: no error, no array append, but the import is still added and
the module file saved. -/
theorem createController_skip (render : String → InputBag → String)
    (options : GenOptions) (s : SysState)
    (imps : List ImportDecl) (cs₁ cs₂ : List ClassDecl)
    (ds₁ ds₂ : List DecoratorNode) (restArgs : List DecoratorArg)
    (props : List PropNode)
    (hg : existsSync s options.filePath = false)
    (hm : s.moduleFile = some (moduleWithProps imps cs₁ cs₂ ds₁ ds₂ restArgs props))
    (hc : ∀ c ∈ cs₁, c.name ≠ "AppModule")
    (hd : ∀ d ∈ ds₁, d.name ≠ "Module")
    (hp : ∀ p ∈ props, p.name ≠ "controllers") :
    createController render options s
      = .ok ⟨s.files ++ [(options.filePath, render "controller" options.input)],
          some (moduleWithProps
            (imps ++ [⟨none, [options.input.controllerName],
              "./controllers/" ++ options.fileNameWithoutEx⟩])
            cs₁ cs₂ ds₁ ds₂ restArgs props),
          s.configIndex⟩ := by
  have h := createController_decomp render options s imps cs₁ cs₂ ds₁ ds₂ restArgs
    props hg hm hc hd
  rw [spliceProp_not_found options.input.controllerName "controllers" props hp] at h
  exact h

/-- Lemma: `createService` when no property of the object literal is named
`providers`. -/
theorem createService_skip (render : String → InputBag → String)
    (options : GenOptions) (s : SysState)
    (imps : List ImportDecl) (cs₁ cs₂ : List ClassDecl)
    (ds₁ ds₂ : List DecoratorNode) (restArgs : List DecoratorArg)
    (props : List PropNode)
    (hg : existsSync s options.filePath = false)
    (hm : s.moduleFile = some (moduleWithProps imps cs₁ cs₂ ds₁ ds₂ restArgs props))
    (hc : ∀ c ∈ cs₁, c.name ≠ "AppModule")
    (hd : ∀ d ∈ ds₁, d.name ≠ "Module")
    (hp : ∀ p ∈ props, p.name ≠ "providers") :
    createService render options s
      = .ok ⟨s.files ++ [(options.filePath, render "service" options.input)],
          some (moduleWithProps
            (imps ++ [⟨none, [options.input.className],
              "./services/" ++ options.fileNameWithoutEx⟩])
            cs₁ cs₂ ds₁ ds₂ restArgs props),
          s.configIndex⟩ := by
  have h := createService_decomp render options s imps cs₁ cs₂ ds₁ ds₂ restArgs
    props hg hm hc hd
  rw [spliceProp_not_found options.input.className "providers" props hp] at h
  exact h

/-- Lemma: `createRepo` when no property of the object literal is named
`providers`. -/
theorem createRepo_skip (render : String → InputBag → String)
    (options : GenOptions) (s : SysState)
    (imps : List ImportDecl) (cs₁ cs₂ : List ClassDecl)
    (ds₁ ds₂ : List DecoratorNode) (restArgs : List DecoratorArg)
    (props : List PropNode)
    (hg : existsSync s options.filePath = false)
    (hm : s.moduleFile = some (moduleWithProps imps cs₁ cs₂ ds₁ ds₂ restArgs props))
    (hc : ∀ c ∈ cs₁, c.name ≠ "AppModule")
    (hd : ∀ d ∈ ds₁, d.name ≠ "Module")
    (hp : ∀ p ∈ props, p.name ≠ "providers") :
    createRepo render options s
      = .ok ⟨s.files ++ [(options.filePath, render "repositoryDB" options.input)],
          some (moduleWithProps
            (imps ++ [⟨none, [options.input.className],
              "./repositories/" ++ options.fileNameWithoutEx⟩])
            cs₁ cs₂ ds₁ ds₂ restArgs props),
          s.configIndex⟩ := by
  have h := createRepo_decomp render options s imps cs₁ cs₂ ds₁ ds₂ restArgs
    props hg hm hc hd
  rw [spliceProp_not_found (repoBinding options.repoToken options.input.className)
    "providers" props hp] at h
  exact h

/-- Whatever makes `createController` throw after the guard has passed, the
error state still holds the freshly written controller file, and both
registry trees exactly as they were. -/
theorem createController_err_state (render : String → InputBag → String)
    (options : GenOptions) (s : SysState)
    (hg : existsSync s options.filePath = false) :
    ∀ e s', createController render options s = .err e s' →
      s' = { s with files :=
        s.files ++ [(options.filePath, render "controller" options.input)] } := by
  intro e s' h
  unfold createController checkIfFileAlreadyExists at h
  simp only [hg, Bool.false_eq_true, if_false] at h
  cases hm : s.moduleFile with
  | none =>
    simp only [hm] at h
    cases h
    rfl
  | some m =>
    simp only [hm] at h
    cases hr : registerInModule m "controllers" options.input.controllerName
        ⟨none, [options.input.controllerName],
          "./controllers/" ++ options.fileNameWithoutEx⟩ with
    | ok m' =>
      rw [hr] at h
      exact absurd h (by simp)
    | error e₀ =>
      rw [hr] at h
      cases h
      rfl

/-- Whatever makes `createService` throw after the guard has passed, the
error state still holds the freshly written service file. -/
theorem createService_err_state (render : String → InputBag → String)
    (options : GenOptions) (s : SysState)
    (hg : existsSync s options.filePath = false) :
    ∀ e s', createService render options s = .err e s' →
      s' = { s with files :=
        s.files ++ [(options.filePath, render "service" options.input)] } := by
  intro e s' h
  unfold createService checkIfFileAlreadyExists at h
  simp only [hg, Bool.false_eq_true, if_false] at h
  cases hm : s.moduleFile with
  | none =>
    simp only [hm] at h
    cases h
    rfl
  | some m =>
    simp only [hm] at h
    cases hr : registerInModule m "providers" options.input.className
        ⟨none, [options.input.className],
          "./services/" ++ options.fileNameWithoutEx⟩ with
    | ok m' =>
      rw [hr] at h
      exact absurd h (by simp)
    | error e₀ =>
      rw [hr] at h
      cases h
      rfl

/-- Whatever makes `createRepo` throw after the guard has passed, the error
state still holds the freshly written repository file. -/
theorem createRepo_err_state (render : String → InputBag → String)
    (options : GenOptions) (s : SysState)
    (hg : existsSync s options.filePath = false) :
    ∀ e s', createRepo render options s = .err e s' →
      s' = { s with files :=
        s.files ++ [(options.filePath, render "repositoryDB" options.input)] } := by
  intro e s' h
  unfold createRepo checkIfFileAlreadyExists at h
  simp only [hg, Bool.false_eq_true, if_false] at h
  cases hm : s.moduleFile with
  | none =>
    simp only [hm] at h
    cases h
    rfl
  | some m =>
    simp only [hm] at h
    cases hr : registerInModule m "providers"
        (repoBinding options.repoToken options.input.className)
        ⟨none, [options.input.className],
          "./repositories/" ++ options.fileNameWithoutEx⟩ with
    | ok m' =>
      rw [hr] at h
      exact absurd h (by simp)
    | error e₀ =>
      rw [hr] at h
      cases h
      rfl

/-- When the target exists, `createConfigFile` stops at the guard. -/
theorem createConfigFile_collision (render : String → InputBag → String)
    (options : GenOptions) (s : SysState)
    (h : existsSync s options.filePath = true) :
    createConfigFile render options s = .err (.alreadyExists options.filePath) s := by
  unfold createConfigFile checkIfFileAlreadyExists
  simp [h]

/-- When the target exists, `createController` stops at the guard. -/
theorem createController_collision (render : String → InputBag → String)
    (options : GenOptions) (s : SysState)
    (h : existsSync s options.filePath = true) :
    createController render options s = .err (.alreadyExists options.filePath) s := by
  unfold createController checkIfFileAlreadyExists
  simp [h]

/-- When the target exists, `createService` stops at the guard. -/
theorem createService_collision (render : String → InputBag → String)
    (options : GenOptions) (s : SysState)
    (h : existsSync s options.filePath = true) :
    createService render options s = .err (.alreadyExists options.filePath) s := by
  unfold createService checkIfFileAlreadyExists
  simp [h]

/-- When the target exists, `createException` stops at the guard. -/
theorem createException_collision (render : String → InputBag → String)
    (options : GenOptions) (s : SysState)
    (h : existsSync s options.filePath = true) :
    createException render options s = .err (.alreadyExists options.filePath) s := by
  unfold createException checkIfFileAlreadyExists
  simp [h]

/-- When the target exists, `createRepo` stops at the guard. -/
theorem createRepo_collision (render : String → InputBag → String)
    (options : GenOptions) (s : SysState)
    (h : existsSync s options.filePath = true) :
    createRepo render options s = .err (.alreadyExists options.filePath) s := by
  unfold createRepo checkIfFileAlreadyExists
  simp [h]

/-- When the target exists, `createModel` stops at the guard. -/
theorem createModel_collision (render : String → InputBag → String)
    (options : GenOptions) (s : SysState)
    (h : existsSync s options.filePath = true) :
    createModel render options s = .err (.alreadyExists options.filePath) s := by
  unfold createModel checkIfFileAlreadyExists
  simp [h]

/-- Every successful run of a controller-generation sequence appends the
controller names to the `controllers` array in invocation order, leaving
the rest of the module tree decomposition intact. -/
theorem runControllerSeq_order (render : String → InputBag → String) :
    ∀ (reqs : List GenOptions) (s s' : SysState) (imps : List ImportDecl)
      (cs₁ cs₂ : List ClassDecl) (ds₁ ds₂ : List DecoratorNode)
      (restArgs : List DecoratorArg) (ps₁ ps₂ : List PropNode)
      (xs : List String),
      (∀ c ∈ cs₁, c.name ≠ "AppModule") →
      (∀ d ∈ ds₁, d.name ≠ "Module") →
      (∀ p ∈ ps₁, p.name ≠ "controllers") →
      s.moduleFile = some (moduleWith imps cs₁ cs₂ ds₁ ds₂ restArgs
        ps₁ ps₂ "controllers" (.arrayLit xs)) →
      runControllerSeq render reqs s = .ok s' →
      ∃ imps', s'.moduleFile = some (moduleWith imps' cs₁ cs₂ ds₁ ds₂ restArgs
        ps₁ ps₂ "controllers"
        (.arrayLit (xs ++ reqs.map (fun o => o.input.controllerName)))) := by
  intro reqs
  induction reqs with
  | nil =>
    intro s s' imps cs₁ cs₂ ds₁ ds₂ restArgs ps₁ ps₂ xs _ _ _ hm hrun
    simp only [runControllerSeq, Outcome.ok.injEq] at hrun
    subst hrun
    exact ⟨imps, by simpa using hm⟩
  | cons o rest ih =>
    intro s s' imps cs₁ cs₂ ds₁ ds₂ restArgs ps₁ ps₂ xs hc hd hp hm hrun
    rw [runControllerSeq] at hrun
    cases hg : existsSync s o.filePath with
    | true =>
      rw [createController_collision render o s hg] at hrun
      simp at hrun
    | false =>
      rw [createController_ok_shape render o s imps cs₁ cs₂ ds₁ ds₂ restArgs
        ps₁ ps₂ xs hg hm hc hd hp] at hrun
      obtain ⟨imps', h'⟩ := ih
        ⟨s.files ++ [(o.filePath, render "controller" o.input)],
          some (moduleWith
            (imps ++ [⟨none, [o.input.controllerName],
              "./controllers/" ++ o.fileNameWithoutEx⟩])
            cs₁ cs₂ ds₁ ds₂ restArgs ps₁ ps₂ "controllers"
            (.arrayLit (xs ++ [o.input.controllerName]))),
          s.configIndex⟩
        s' (imps ++ [⟨none, [o.input.controllerName],
          "./controllers/" ++ o.fileNameWithoutEx⟩])
        cs₁ cs₂ ds₁ ds₂ restArgs ps₁ ps₂ (xs ++ [o.input.controllerName])
        hc hd hp rfl hrun
      exact ⟨imps', by simpa using h'⟩

/-- Every successful run of a mixed sequence of controller, service and
repository generations against the same `app/module.ts` registry appends
the controller names to the `controllers` array and the provider elements
(service class names, repository provider bindings) to the `providers`
array, each in invocation order. -/
theorem runModuleSeq_order (render : String → InputBag → String) :
    ∀ (reqs : List ModuleReq) (s s' : SysState) (m : ModuleFile)
      (cxs pxs : List String),
      s.moduleFile = some m →
      moduleArray? m "controllers" = some cxs →
      moduleArray? m "providers" = some pxs →
      runModuleSeq render reqs s = .ok s' →
      ∃ m', s'.moduleFile = some m'
        ∧ moduleArray? m' "controllers" = some (cxs ++ ctrlNames reqs)
        ∧ moduleArray? m' "providers" = some (pxs ++ provElems reqs) := by
  intro reqs
  induction reqs with
  | nil =>
    intro s s' m cxs pxs hm hc hp hrun
    simp only [runModuleSeq, Outcome.ok.injEq] at hrun
    subst hrun
    exact ⟨m, hm, by simp [ctrlNames, hc], by simp [provElems, hp]⟩
  | cons r rest ih =>
    intro s s' m cxs pxs hm hc hp hrun
    cases r with
    | controller o =>
      simp only [runModuleSeq] at hrun
      cases hg : existsSync s o.filePath with
      | true =>
        rw [createController_collision render o s hg] at hrun
        simp at hrun
      | false =>
        obtain ⟨m'', hr, _him, hck, hok⟩ := registerInModule_read m "controllers"
          o.input.controllerName
          ⟨none, [o.input.controllerName], "./controllers/" ++ o.fileNameWithoutEx⟩
          cxs hc
        rw [createController_cases render o s m hg hm, hr] at hrun
        obtain ⟨m', hm', hc', hp'⟩ := ih
          ⟨s.files ++ [(o.filePath, render "controller" o.input)],
            some m'', s.configIndex⟩
          s' m'' (cxs ++ [o.input.controllerName]) pxs rfl hck
          (by rw [hok "providers" (by decide)]; exact hp) hrun
        exact ⟨m', hm', by simpa [ctrlNames] using hc',
          by simpa [provElems] using hp'⟩
    | service o =>
      simp only [runModuleSeq] at hrun
      cases hg : existsSync s o.filePath with
      | true =>
        rw [createService_collision render o s hg] at hrun
        simp at hrun
      | false =>
        obtain ⟨m'', hr, _him, hpk, hok⟩ := registerInModule_read m "providers"
          o.input.className
          ⟨none, [o.input.className], "./services/" ++ o.fileNameWithoutEx⟩
          pxs hp
        rw [createService_cases render o s m hg hm, hr] at hrun
        obtain ⟨m', hm', hc', hp'⟩ := ih
          ⟨s.files ++ [(o.filePath, render "service" o.input)],
            some m'', s.configIndex⟩
          s' m'' cxs (pxs ++ [o.input.className]) rfl
          (by rw [hok "controllers" (by decide)]; exact hc) hpk hrun
        exact ⟨m', hm', by simpa [ctrlNames] using hc',
          by simpa [provElems] using hp'⟩
    | repo o =>
      simp only [runModuleSeq] at hrun
      cases hg : existsSync s o.filePath with
      | true =>
        rw [createRepo_collision render o s hg] at hrun
        simp at hrun
      | false =>
        obtain ⟨m'', hr, _him, hpk, hok⟩ := registerInModule_read m "providers"
          (repoBinding o.repoToken o.input.className)
          ⟨none, [o.input.className], "./repositories/" ++ o.fileNameWithoutEx⟩
          pxs hp
        rw [createRepo_cases render o s m hg hm, hr] at hrun
        obtain ⟨m', hm', hc', hp'⟩ := ih
          ⟨s.files ++ [(o.filePath, render "repositoryDB" o.input)],
            some m'', s.configIndex⟩
          s' m'' cxs (pxs ++ [repoBinding o.repoToken o.input.className]) rfl
          (by rw [hok "controllers" (by decide)]; exact hc) hpk hrun
        exact ⟨m', hm', by simpa [ctrlNames] using hc',
          by simpa [provElems] using hp'⟩

/-- Every successful run of a configuration-generation sequence appends the
file names to the default-export array in invocation order. -/
theorem runConfigSeq_order (render : String → InputBag → String) :
    ∀ (reqs : List GenOptions) (s s' : SysState) (imps : List ImportDecl)
      (xs : List String),
      s.configIndex = some ⟨imps, some (.arrayLit xs)⟩ →
      runConfigSeq render reqs s = .ok s' →
      ∃ imps', s'.configIndex = some ⟨imps',
        some (.arrayLit (xs ++ reqs.map (fun o => o.fileNameWithoutEx)))⟩ := by
  intro reqs
  induction reqs with
  | nil =>
    intro s s' imps xs hcfg hrun
    simp only [runConfigSeq, Outcome.ok.injEq] at hrun
    subst hrun
    exact ⟨imps, by simpa using hcfg⟩
  | cons o rest ih =>
    intro s s' imps xs hcfg hrun
    rw [runConfigSeq] at hrun
    cases hg : existsSync s o.filePath with
    | true =>
      rw [createConfigFile_collision render o s hg] at hrun
      simp at hrun
    | false =>
      rw [createConfigFile_with_export render o s imps xs hg hcfg] at hrun
      obtain ⟨imps', h'⟩ := ih
        ⟨s.files ++ [(o.filePath, render "config" o.input)],
          s.moduleFile,
          some ⟨imps ++ [⟨some o.fileNameWithoutEx, [],
              "./" ++ o.fileNameWithoutEx⟩],
            some (.arrayLit (xs ++ [o.fileNameWithoutEx]))⟩⟩
        s' (imps ++ [⟨some o.fileNameWithoutEx, [],
          "./" ++ o.fileNameWithoutEx⟩])
        (xs ++ [o.fileNameWithoutEx]) rfl hrun
      exact ⟨imps', by simpa using h'⟩

/-- Lemma: `createConfigFile` on a registry whose default export is absent: the
generation completes normally and only the new file is added; the registry
tree on disk is exactly the one the call started from. -/
theorem createConfigFile_none_export (render : String → InputBag → String)
    (options : GenOptions) (s : SysState) (c : ConfigIndexFile)
    (h1 : existsSync s options.filePath = false)
    (h2 : s.configIndex = some c)
    (h3 : c.defaultExport = none) :
    createConfigFile render options s =
      .ok { s with files :=
        s.files ++ [(options.filePath, render "config" options.input)] } := by
  unfold createConfigFile checkIfFileAlreadyExists
  simp [h1, h2, h3]

/-! Claim theorems. -/

/-- C3: for every kind, invoking a generator with a target file path that
already exists throws an error whose message names that path
(`<path> already exists`), and the on-disk state is left exactly as it was:
the existence guard runs before any render, write, or registry mutation. -/
theorem collision_guard_all_kinds (render : String → InputBag → String)
    (options : GenOptions) (s : SysState)
    (h : existsSync s options.filePath = true) :
    createConfigFile render options s = .err (.alreadyExists options.filePath) s
    ∧ createController render options s = .err (.alreadyExists options.filePath) s
    ∧ createService render options s = .err (.alreadyExists options.filePath) s
    ∧ createException render options s = .err (.alreadyExists options.filePath) s
    ∧ createRepo render options s = .err (.alreadyExists options.filePath) s
    ∧ createModel render options s = .err (.alreadyExists options.filePath) s
    ∧ (CodegenError.alreadyExists options.filePath).message
        = options.filePath ++ " already exists" :=
  ⟨createConfigFile_collision render options s h,
   createController_collision render options s h,
   createService_collision render options s h,
   createException_collision render options s h,
   createRepo_collision render options s h,
   createModel_collision render options s h,
   rfl⟩

/-- C8: for the exception and model kinds, a successful generation adds
exactly one file (the rendered template at the target path) and leaves both
registry trees untouched. -/
theorem exception_model_single_file (render : String → InputBag → String)
    (options : GenOptions) (s : SysState)
    (h : existsSync s options.filePath = false) :
    createException render options s =
      .ok { s with files :=
        s.files ++ [(options.filePath, render "exception" options.input)] }
    ∧ createModel render options s =
      .ok { s with files :=
        s.files ++ [(options.filePath, render "model" options.input)] } := by
  unfold createException createModel checkIfFileAlreadyExists
  simp [h]

/-- C4: a configuration generation whose registry `config/index.ts` has no
default export assignment completes without raising an error and appends no
element to any array: only the new file is created, the registry tree is
returned unchanged. -/
theorem config_missing_export_silent_success
    (render : String → InputBag → String)
    (options : GenOptions) (s : SysState) (c : ConfigIndexFile)
    (h1 : existsSync s options.filePath = false)
    (h2 : s.configIndex = some c)
    (h3 : c.defaultExport = none) :
    createConfigFile render options s =
      .ok { s with files :=
        s.files ++ [(options.filePath, render "config" options.input)] } :=
  createConfigFile_none_export render options s c h1 h2 h3

/-- C5: when `config/index.ts` lacks a default export assignment, the
function returns before the registry save, so whatever state a successful
run produces carries the registry file byte-for-byte unchanged: the import
declaration added to the in-memory tree is never persisted. -/
theorem config_missing_export_registry_untouched
    (render : String → InputBag → String)
    (options : GenOptions) (s : SysState) (c : ConfigIndexFile)
    (h1 : existsSync s options.filePath = false)
    (h2 : s.configIndex = some c)
    (h3 : c.defaultExport = none) :
    ∀ s', createConfigFile render options s = .ok s' →
      s'.configIndex = s.configIndex := by
  intro s' hrun
  rw [createConfigFile_none_export render options s c h1 h2 h3] at hrun
  cases hrun
  rfl

/-- C1 counterexample: this configuration generation is successful (the
outcome is `ok`), yet the registry file `config/index.ts` gained neither an import
nor an array element — on disk it is exactly the tree the call
started from, because the missing default export makes `createConfigFile`
return before the registry save.  This refutes the claim as stated, whose
universal quantification over successful generations promises one
appended import and one appended element. -/
theorem config_success_without_registration :
    createConfigFile rend0 cfgOpts stNoExport
      = .ok ⟨[("config/database.ts", "config rendered")], none, some cfgNoExport⟩
    ∧ (⟨[("config/database.ts", "config rendered")], none, some cfgNoExport⟩
        : SysState).configIndex = stNoExport.configIndex :=
  ⟨rfl, rfl⟩

/-- C1 (amended): for the configuration, controller, service and repository
kinds, a generation whose target is fresh and whose registry is in the
expected shape (configuration: default-export assignment present and an
array literal; controller/service/repository: the located
`controllers`/`providers` property a property assignment holding an array
literal) succeeds, creates exactly one new file containing the render of
the kind's template on the request's input bag, and leaves the registry
tree with exactly one new import appended and exactly one new element
appended at the end of the target array, every other part of the registry
byte-for-byte unchanged.  The expected-shape proviso is forced by the
counterexample. -/
theorem generation_appends_when_shape_ok :
    (∀ (render : String → InputBag → String) (options : GenOptions)
       (s : SysState) (imps : List ImportDecl) (xs : List String),
      existsSync s options.filePath = false →
      s.configIndex = some ⟨imps, some (.arrayLit xs)⟩ →
      createConfigFile render options s
        = .ok ⟨s.files ++ [(options.filePath, render "config" options.input)],
            s.moduleFile,
            some ⟨imps ++ [⟨some options.fileNameWithoutEx, [],
                "./" ++ options.fileNameWithoutEx⟩],
              some (.arrayLit (xs ++ [options.fileNameWithoutEx]))⟩⟩)
    ∧ (∀ (render : String → InputBag → String) (options : GenOptions)
         (s : SysState) (imps : List ImportDecl) (cs₁ cs₂ : List ClassDecl)
         (ds₁ ds₂ : List DecoratorNode) (restArgs : List DecoratorArg)
         (ps₁ ps₂ : List PropNode) (xs : List String),
        existsSync s options.filePath = false →
        s.moduleFile = some (moduleWith imps cs₁ cs₂ ds₁ ds₂ restArgs
          ps₁ ps₂ "controllers" (.arrayLit xs)) →
        (∀ c ∈ cs₁, c.name ≠ "AppModule") →
        (∀ d ∈ ds₁, d.name ≠ "Module") →
        (∀ p ∈ ps₁, p.name ≠ "controllers") →
        createController render options s
          = .ok ⟨s.files ++ [(options.filePath, render "controller" options.input)],
              some (moduleWith
                (imps ++ [⟨none, [options.input.controllerName],
                  "./controllers/" ++ options.fileNameWithoutEx⟩])
                cs₁ cs₂ ds₁ ds₂ restArgs ps₁ ps₂ "controllers"
                (.arrayLit (xs ++ [options.input.controllerName]))),
              s.configIndex⟩)
    ∧ (∀ (render : String → InputBag → String) (options : GenOptions)
         (s : SysState) (imps : List ImportDecl) (cs₁ cs₂ : List ClassDecl)
         (ds₁ ds₂ : List DecoratorNode) (restArgs : List DecoratorArg)
         (ps₁ ps₂ : List PropNode) (xs : List String),
        existsSync s options.filePath = false →
        s.moduleFile = some (moduleWith imps cs₁ cs₂ ds₁ ds₂ restArgs
          ps₁ ps₂ "providers" (.arrayLit xs)) →
        (∀ c ∈ cs₁, c.name ≠ "AppModule") →
        (∀ d ∈ ds₁, d.name ≠ "Module") →
        (∀ p ∈ ps₁, p.name ≠ "providers") →
        createService render options s
          = .ok ⟨s.files ++ [(options.filePath, render "service" options.input)],
              some (moduleWith
                (imps ++ [⟨none, [options.input.className],
                  "./services/" ++ options.fileNameWithoutEx⟩])
                cs₁ cs₂ ds₁ ds₂ restArgs ps₁ ps₂ "providers"
                (.arrayLit (xs ++ [options.input.className]))),
              s.configIndex⟩)
    ∧ (∀ (render : String → InputBag → String) (options : GenOptions)
         (s : SysState) (imps : List ImportDecl) (cs₁ cs₂ : List ClassDecl)
         (ds₁ ds₂ : List DecoratorNode) (restArgs : List DecoratorArg)
         (ps₁ ps₂ : List PropNode) (xs : List String),
        existsSync s options.filePath = false →
        s.moduleFile = some (moduleWith imps cs₁ cs₂ ds₁ ds₂ restArgs
          ps₁ ps₂ "providers" (.arrayLit xs)) →
        (∀ c ∈ cs₁, c.name ≠ "AppModule") →
        (∀ d ∈ ds₁, d.name ≠ "Module") →
        (∀ p ∈ ps₁, p.name ≠ "providers") →
        createRepo render options s
          = .ok ⟨s.files ++ [(options.filePath, render "repositoryDB" options.input)],
              some (moduleWith
                (imps ++ [⟨none, [options.input.className],
                  "./repositories/" ++ options.fileNameWithoutEx⟩])
                cs₁ cs₂ ds₁ ds₂ restArgs ps₁ ps₂ "providers"
                (.arrayLit (xs ++
                  [repoBinding options.repoToken options.input.className]))),
              s.configIndex⟩) :=
  ⟨fun render options s imps xs hg hc =>
     createConfigFile_with_export render options s imps xs hg hc,
   fun render options s imps cs₁ cs₂ ds₁ ds₂ restArgs ps₁ ps₂ xs hg hm hc hd hp =>
     createController_ok_shape render options s imps cs₁ cs₂ ds₁ ds₂ restArgs
       ps₁ ps₂ xs hg hm hc hd hp,
   fun render options s imps cs₁ cs₂ ds₁ ds₂ restArgs ps₁ ps₂ xs hg hm hc hd hp =>
     createService_ok_shape render options s imps cs₁ cs₂ ds₁ ds₂ restArgs
       ps₁ ps₂ xs hg hm hc hd hp,
   fun render options s imps cs₁ cs₂ ds₁ ds₂ restArgs ps₁ ps₂ xs hg hm hc hd hp =>
     createRepo_ok_shape render options s imps cs₁ cs₂ ds₁ ds₂ restArgs
       ps₁ ps₂ xs hg hm hc hd hp⟩

/-- C2 counterexample: the `@Module({...})` object literal of this state
has no `providers` property at all, yet the service generation does NOT
fail: it completes with `ok`, and the registry tree is persisted carrying
the new import (while the array append was silently skipped).  This
refutes the claim as stated, which promises an error before any persist of
the registry file and no registry mutation on disk. -/
theorem missing_providers_property_no_error :
    createService rend0 svcOpts stNoProviders
      = .ok ⟨[("services/widget.ts", "service rendered")],
          some ⟨[⟨none, ["WidgetService"], "./services/widget"⟩],
            [⟨"AppModule", [⟨"Module",
              [.objectLit [.propAssign "controllers" (.arrayLit [])]]⟩]⟩]⟩,
          some cfg0⟩ := rfl

/-- C2 (amended): for controller, service and repository generation, if the
located `controllers`/`providers` property exists as a property assignment
whose initializer is not an array literal, the generation fails with the
`asKindOrThrow` error before the registry save, and the registry tree on
disk is unchanged (conjuncts 1–3); but if no property with that name
exists, the generation does not fail: the array append is silently skipped
while the import is still added and the registry saved (conjuncts 4–6).
The original claim's missing-property case is corrected by the
counterexample; its wrong-shape case survives. -/
theorem registration_shape_failure_policy :
    (∀ (render : String → InputBag → String) (options : GenOptions)
       (s : SysState) (imps : List ImportDecl) (cs₁ cs₂ : List ClassDecl)
       (ds₁ ds₂ : List DecoratorNode) (restArgs : List DecoratorArg)
       (ps₁ ps₂ : List PropNode) (t : String),
      existsSync s options.filePath = false →
      s.moduleFile = some (moduleWith imps cs₁ cs₂ ds₁ ds₂ restArgs
        ps₁ ps₂ "controllers" (.otherExpr t)) →
      (∀ c ∈ cs₁, c.name ≠ "AppModule") →
      (∀ d ∈ ds₁, d.name ≠ "Module") →
      (∀ p ∈ ps₁, p.name ≠ "controllers") →
      createController render options s
        = .err (.notKind "ArrayLiteralExpression")
            ⟨s.files ++ [(options.filePath, render "controller" options.input)],
              s.moduleFile, s.configIndex⟩)
    ∧ (∀ (render : String → InputBag → String) (options : GenOptions)
         (s : SysState) (imps : List ImportDecl) (cs₁ cs₂ : List ClassDecl)
         (ds₁ ds₂ : List DecoratorNode) (restArgs : List DecoratorArg)
         (ps₁ ps₂ : List PropNode) (t : String),
        existsSync s options.filePath = false →
        s.moduleFile = some (moduleWith imps cs₁ cs₂ ds₁ ds₂ restArgs
          ps₁ ps₂ "providers" (.otherExpr t)) →
        (∀ c ∈ cs₁, c.name ≠ "AppModule") →
        (∀ d ∈ ds₁, d.name ≠ "Module") →
        (∀ p ∈ ps₁, p.name ≠ "providers") →
        createService render options s
          = .err (.notKind "ArrayLiteralExpression")
              ⟨s.files ++ [(options.filePath, render "service" options.input)],
                s.moduleFile, s.configIndex⟩)
    ∧ (∀ (render : String → InputBag → String) (options : GenOptions)
         (s : SysState) (imps : List ImportDecl) (cs₁ cs₂ : List ClassDecl)
         (ds₁ ds₂ : List DecoratorNode) (restArgs : List DecoratorArg)
         (ps₁ ps₂ : List PropNode) (t : String),
        existsSync s options.filePath = false →
        s.moduleFile = some (moduleWith imps cs₁ cs₂ ds₁ ds₂ restArgs
          ps₁ ps₂ "providers" (.otherExpr t)) →
        (∀ c ∈ cs₁, c.name ≠ "AppModule") →
        (∀ d ∈ ds₁, d.name ≠ "Module") →
        (∀ p ∈ ps₁, p.name ≠ "providers") →
        createRepo render options s
          = .err (.notKind "ArrayLiteralExpression")
              ⟨s.files ++ [(options.filePath, render "repositoryDB" options.input)],
                s.moduleFile, s.configIndex⟩)
    ∧ (∀ (render : String → InputBag → String) (options : GenOptions)
         (s : SysState) (imps : List ImportDecl) (cs₁ cs₂ : List ClassDecl)
         (ds₁ ds₂ : List DecoratorNode) (restArgs : List DecoratorArg)
         (props : List PropNode),
        existsSync s options.filePath = false →
        s.moduleFile = some (moduleWithProps imps cs₁ cs₂ ds₁ ds₂ restArgs props) →
        (∀ c ∈ cs₁, c.name ≠ "AppModule") →
        (∀ d ∈ ds₁, d.name ≠ "Module") →
        (∀ p ∈ props, p.name ≠ "controllers") →
        createController render options s
          = .ok ⟨s.files ++ [(options.filePath, render "controller" options.input)],
              some (moduleWithProps
                (imps ++ [⟨none, [options.input.controllerName],
                  "./controllers/" ++ options.fileNameWithoutEx⟩])
                cs₁ cs₂ ds₁ ds₂ restArgs props),
              s.configIndex⟩)
    ∧ (∀ (render : String → InputBag → String) (options : GenOptions)
         (s : SysState) (imps : List ImportDecl) (cs₁ cs₂ : List ClassDecl)
         (ds₁ ds₂ : List DecoratorNode) (restArgs : List DecoratorArg)
         (props : List PropNode),
        existsSync s options.filePath = false →
        s.moduleFile = some (moduleWithProps imps cs₁ cs₂ ds₁ ds₂ restArgs props) →
        (∀ c ∈ cs₁, c.name ≠ "AppModule") →
        (∀ d ∈ ds₁, d.name ≠ "Module") →
        (∀ p ∈ props, p.name ≠ "providers") →
        createService render options s
          = .ok ⟨s.files ++ [(options.filePath, render "service" options.input)],
              some (moduleWithProps
                (imps ++ [⟨none, [options.input.className],
                  "./services/" ++ options.fileNameWithoutEx⟩])
                cs₁ cs₂ ds₁ ds₂ restArgs props),
              s.configIndex⟩)
    ∧ (∀ (render : String → InputBag → String) (options : GenOptions)
         (s : SysState) (imps : List ImportDecl) (cs₁ cs₂ : List ClassDecl)
         (ds₁ ds₂ : List DecoratorNode) (restArgs : List DecoratorArg)
         (props : List PropNode),
        existsSync s options.filePath = false →
        s.moduleFile = some (moduleWithProps imps cs₁ cs₂ ds₁ ds₂ restArgs props) →
        (∀ c ∈ cs₁, c.name ≠ "AppModule") →
        (∀ d ∈ ds₁, d.name ≠ "Module") →
        (∀ p ∈ props, p.name ≠ "providers") →
        createRepo render options s
          = .ok ⟨s.files ++ [(options.filePath, render "repositoryDB" options.input)],
              some (moduleWithProps
                (imps ++ [⟨none, [options.input.className],
                  "./repositories/" ++ options.fileNameWithoutEx⟩])
                cs₁ cs₂ ds₁ ds₂ restArgs props),
              s.configIndex⟩) :=
  ⟨fun render options s imps cs₁ cs₂ ds₁ ds₂ restArgs ps₁ ps₂ t hg hm hc hd hp =>
     createController_notArray render options s imps cs₁ cs₂ ds₁ ds₂ restArgs
       ps₁ ps₂ t hg hm hc hd hp,
   fun render options s imps cs₁ cs₂ ds₁ ds₂ restArgs ps₁ ps₂ t hg hm hc hd hp =>
     createService_notArray render options s imps cs₁ cs₂ ds₁ ds₂ restArgs
       ps₁ ps₂ t hg hm hc hd hp,
   fun render options s imps cs₁ cs₂ ds₁ ds₂ restArgs ps₁ ps₂ t hg hm hc hd hp =>
     createRepo_notArray render options s imps cs₁ cs₂ ds₁ ds₂ restArgs
       ps₁ ps₂ t hg hm hc hd hp,
   fun render options s imps cs₁ cs₂ ds₁ ds₂ restArgs props hg hm hc hd hp =>
     createController_skip render options s imps cs₁ cs₂ ds₁ ds₂ restArgs
       props hg hm hc hd hp,
   fun render options s imps cs₁ cs₂ ds₁ ds₂ restArgs props hg hm hc hd hp =>
     createService_skip render options s imps cs₁ cs₂ ds₁ ds₂ restArgs
       props hg hm hc hd hp,
   fun render options s imps cs₁ cs₂ ds₁ ds₂ restArgs props hg hm hc hd hp =>
     createRepo_skip render options s imps cs₁ cs₂ ds₁ ds₂ restArgs
       props hg hm hc hd hp⟩

/-- C6: for every `repoToken` string and every `className` in the input
bag, repository generation appends to the module's `providers` array
exactly the provider-binding element text
`{ provide: '<repoToken>', useClass: <className>, }` — the token spliced in
verbatim between the single quotes, with no escaping or transformation. -/
theorem repo_token_spliced_verbatim (render : String → InputBag → String)
    (options : GenOptions) (s : SysState)
    (imps : List ImportDecl) (cs₁ cs₂ : List ClassDecl)
    (ds₁ ds₂ : List DecoratorNode) (restArgs : List DecoratorArg)
    (ps₁ ps₂ : List PropNode) (xs : List String)
    (hg : existsSync s options.filePath = false)
    (hm : s.moduleFile = some (moduleWith imps cs₁ cs₂ ds₁ ds₂ restArgs
      ps₁ ps₂ "providers" (.arrayLit xs)))
    (hc : ∀ c ∈ cs₁, c.name ≠ "AppModule")
    (hd : ∀ d ∈ ds₁, d.name ≠ "Module")
    (hp : ∀ p ∈ ps₁, p.name ≠ "providers") :
    createRepo render options s
      = .ok ⟨s.files ++ [(options.filePath, render "repositoryDB" options.input)],
          some (moduleWith
            (imps ++ [⟨none, [options.input.className],
              "./repositories/" ++ options.fileNameWithoutEx⟩])
            cs₁ cs₂ ds₁ ds₂ restArgs ps₁ ps₂ "providers"
            (.arrayLit (xs ++ ["\x7b provide: '" ++ options.repoToken
              ++ "', useClass: " ++ options.input.className ++ ", \x7d"]))),
          s.configIndex⟩ :=
  createRepo_ok_shape render options s imps cs₁ cs₂ ds₁ ds₂ restArgs
    ps₁ ps₂ xs hg hm hc hd hp

/-- C7: for the controller, service and repository kinds, once the guard
has passed, any thrown error leaves the freshly written artifact file on
disk — no rollback — while both registry trees are exactly as they were
before the call (the registry update did not happen). -/
theorem no_rollback_after_write (render : String → InputBag → String)
    (options : GenOptions) (s : SysState)
    (hg : existsSync s options.filePath = false) :
    (∀ e s', createController render options s = .err e s' →
      s' = { s with files :=
        s.files ++ [(options.filePath, render "controller" options.input)] })
    ∧ (∀ e s', createService render options s = .err e s' →
      s' = { s with files :=
        s.files ++ [(options.filePath, render "service" options.input)] })
    ∧ (∀ e s', createRepo render options s = .err e s' →
      s' = { s with files :=
        s.files ++ [(options.filePath, render "repositoryDB" options.input)] }) :=
  ⟨createController_err_state render options s hg,
   createService_err_state render options s hg,
   createRepo_err_state render options s hg⟩

/-- C9: for every sequence of successful generations registering into the
same registry, each new element is appended at the end of its target
array, so element order equals invocation order.  Conjunct 1 covers every
mixed sequence of controller, service and repository generations against
the `app/module.ts` registry (the `controllers` array gains the controller
names, the shared `providers` array gains the service class names and
repository provider bindings, each in invocation order); conjunct 2 covers
controller-only sequences against a registry carrying just a `controllers`
array; conjunct 3 covers configuration sequences against the
default-export array of `config/index.ts`. -/
theorem registration_append_order :
    (∀ (render : String → InputBag → String) (reqs : List ModuleReq)
       (s s' : SysState) (m : ModuleFile) (cxs pxs : List String),
      s.moduleFile = some m →
      moduleArray? m "controllers" = some cxs →
      moduleArray? m "providers" = some pxs →
      runModuleSeq render reqs s = .ok s' →
      ∃ m', s'.moduleFile = some m'
        ∧ moduleArray? m' "controllers" = some (cxs ++ ctrlNames reqs)
        ∧ moduleArray? m' "providers" = some (pxs ++ provElems reqs))
    ∧ (∀ (render : String → InputBag → String) (reqs : List GenOptions)
       (s s' : SysState) (imps : List ImportDecl)
       (cs₁ cs₂ : List ClassDecl) (ds₁ ds₂ : List DecoratorNode)
       (restArgs : List DecoratorArg) (ps₁ ps₂ : List PropNode)
       (xs : List String),
      (∀ c ∈ cs₁, c.name ≠ "AppModule") →
      (∀ d ∈ ds₁, d.name ≠ "Module") →
      (∀ p ∈ ps₁, p.name ≠ "controllers") →
      s.moduleFile = some (moduleWith imps cs₁ cs₂ ds₁ ds₂ restArgs
        ps₁ ps₂ "controllers" (.arrayLit xs)) →
      runControllerSeq render reqs s = .ok s' →
      ∃ imps', s'.moduleFile = some (moduleWith imps' cs₁ cs₂ ds₁ ds₂ restArgs
        ps₁ ps₂ "controllers"
        (.arrayLit (xs ++ reqs.map (fun o => o.input.controllerName)))))
    ∧ (∀ (render : String → InputBag → String) (reqs : List GenOptions)
         (s s' : SysState) (imps : List ImportDecl) (xs : List String),
        s.configIndex = some ⟨imps, some (.arrayLit xs)⟩ →
        runConfigSeq render reqs s = .ok s' →
        ∃ imps', s'.configIndex = some ⟨imps',
          some (.arrayLit (xs ++ reqs.map (fun o => o.fileNameWithoutEx)))⟩) :=
  ⟨fun render => runModuleSeq_order render,
   fun render => runControllerSeq_order render,
   fun render => runConfigSeq_order render⟩

/-- C10: the `Dto` parameter decorator returns the WebSocket client's
stored `_dto` payload exactly when the context type is `ws`, and otherwise
returns the result of `dto()` on the HTTP request. -/
theorem Dto_transport_branches {α : Type} (ctx : ExecutionContext α) :
    (ctx.contextType = "ws" → Dto ctx = ctx.wsClient._dto)
    ∧ (ctx.contextType ≠ "ws" → Dto ctx = ctx.httpRequest.dto) := by
  constructor
  · intro h
    simp [Dto, h]
  · intro h
    simp [Dto, h]

/-! Witnesses. -/

/-- Witness for C3 at a concrete collision: the guard hypothesis holds and
the controller generator throws the collision error, leaving the state
untouched. -/
theorem collision_guard_all_kinds_witness :
    existsSync stColl opts0.filePath = true
    ∧ createController rend0 opts0 stColl
        = .err (.alreadyExists opts0.filePath) stColl :=
  ⟨by decide, (collision_guard_all_kinds rend0 opts0 stColl (by decide)).2.1⟩

/-- Witness for C8 at a concrete request: the guard hypothesis holds and a
model-free, registry-free new file is the only change. -/
theorem exception_model_single_file_witness :
    existsSync st0 excOpts.filePath = false
    ∧ createException rend0 excOpts st0
        = .ok { st0 with files :=
            st0.files ++ [(excOpts.filePath, rend0 "exception" excOpts.input)] } :=
  ⟨by decide, (exception_model_single_file rend0 excOpts st0 (by decide)).1⟩

/-- Witness for C4 at a concrete request against a registry without a
default export. -/
theorem config_missing_export_silent_success_witness :
    (existsSync stNoExport cfgOpts.filePath = false
      ∧ stNoExport.configIndex = some cfgNoExport
      ∧ cfgNoExport.defaultExport = none)
    ∧ createConfigFile rend0 cfgOpts stNoExport
        = .ok { stNoExport with files :=
            stNoExport.files ++ [(cfgOpts.filePath, rend0 "config" cfgOpts.input)] } :=
  ⟨⟨by decide, rfl, rfl⟩,
    config_missing_export_silent_success rend0 cfgOpts stNoExport cfgNoExport
      (by decide) rfl rfl⟩

/-- Witness for C5 at the same concrete request: the state the successful
run produces keeps `config/index.ts` exactly as it was. -/
theorem config_missing_export_registry_untouched_witness :
    ({ stNoExport with files :=
        stNoExport.files ++ [(cfgOpts.filePath, rend0 "config" cfgOpts.input)] }
      : SysState).configIndex = stNoExport.configIndex :=
  config_missing_export_registry_untouched rend0 cfgOpts stNoExport cfgNoExport
    (by decide) rfl rfl _ rfl

/-- Witness for the amended C1 at a concrete controller generation against
the healthy module registry. -/
theorem generation_appends_when_shape_ok_witness :
    existsSync st0 opts0.filePath = false
    ∧ createController rend0 opts0 st0
        = .ok ⟨st0.files ++ [(opts0.filePath, rend0 "controller" opts0.input)],
            some (moduleWith
              ([] ++ [⟨none, [opts0.input.controllerName],
                "./controllers/" ++ opts0.fileNameWithoutEx⟩])
              [] [] [] [] []
              [] [.propAssign "providers" (.arrayLit ["AppService"])] "controllers"
              (.arrayLit (["AppController"] ++ [opts0.input.controllerName]))),
            st0.configIndex⟩ :=
  ⟨by decide,
    generation_appends_when_shape_ok.2.1 rend0 opts0 st0 [] [] [] [] [] []
      [] [.propAssign "providers" (.arrayLit ["AppService"])] ["AppController"]
      (by decide) rfl (by decide) (by decide) (by decide)⟩

/-- Witness for the amended C2 at a concrete controller generation whose
`controllers` property is initialised by a non-array expression. -/
theorem registration_shape_failure_policy_witness :
    existsSync stBadShape opts0.filePath = false
    ∧ createController rend0 opts0 stBadShape
        = .err (.notKind "ArrayLiteralExpression")
            ⟨stBadShape.files ++ [(opts0.filePath, rend0 "controller" opts0.input)],
              stBadShape.moduleFile, stBadShape.configIndex⟩ :=
  ⟨by decide,
    registration_shape_failure_policy.1 rend0 opts0 stBadShape [] [] [] [] [] []
      [] [] "controllersRef"
      (by decide) rfl (by decide) (by decide) (by decide)⟩

/-- Witness for C6 at the concrete repository request with
`repoToken = WIDGET_REPO` and `className = WidgetRepository`. -/
theorem repo_token_spliced_verbatim_witness :
    existsSync st0 repoOpts.filePath = false
    ∧ createRepo rend0 repoOpts st0
        = .ok ⟨st0.files ++ [(repoOpts.filePath, rend0 "repositoryDB" repoOpts.input)],
            some (moduleWith
              ([] ++ [⟨none, [repoOpts.input.className],
                "./repositories/" ++ repoOpts.fileNameWithoutEx⟩])
              [] [] [] [] []
              [.propAssign "controllers" (.arrayLit ["AppController"])] []
              "providers"
              (.arrayLit (["AppService"] ++ ["\x7b provide: '"
                ++ repoOpts.repoToken ++ "', useClass: "
                ++ repoOpts.input.className ++ ", \x7d"]))),
            st0.configIndex⟩ :=
  ⟨by decide,
    repo_token_spliced_verbatim rend0 repoOpts st0 [] [] [] [] [] []
      [.propAssign "controllers" (.arrayLit ["AppController"])] [] ["AppService"]
      (by decide) rfl (by decide) (by decide) (by decide)⟩

/-- Witness for C7 at a concrete registration failure (no `AppModule` class
in the module registry): the thrown state still holds the new file. -/
theorem no_rollback_after_write_witness :
    existsSync stNoClass opts0.filePath = false
    ∧ (⟨[(opts0.filePath, rend0 "controller" opts0.input)], some ⟨[], []⟩, none⟩
        : SysState)
      = { stNoClass with files :=
          stNoClass.files ++ [(opts0.filePath, rend0 "controller" opts0.input)] } :=
  ⟨by decide,
    (no_rollback_after_write rend0 opts0 stNoClass (by decide)).1
      (.classNotFound "AppModule")
      ⟨[(opts0.filePath, rend0 "controller" opts0.input)], some ⟨[], []⟩, none⟩
      (by decide)⟩

/-- Witness for C9 at a concrete mixed three-step sequence (controller,
then service, then repository): all three generations succeed, the
`controllers` array gained the controller name, and the shared `providers`
array gained the service class name and the repository binding, in
invocation order. -/
theorem registration_append_order_witness :
    runModuleSeq rend0 mixReqs st0 = .ok stMix
    ∧ ∃ m', stMix.moduleFile = some m'
        ∧ moduleArray? m' "controllers"
            = some (["AppController"] ++ ctrlNames mixReqs)
        ∧ moduleArray? m' "providers"
            = some (["AppService"] ++ provElems mixReqs) :=
  ⟨by decide,
    registration_append_order.1 rend0 mixReqs st0 stMix mod0
      ["AppController"] ["AppService"]
      rfl (by decide) (by decide) (by decide)⟩

/-- Witness for C10 at one concrete `ws` context and one concrete non-`ws`
context. -/
theorem Dto_transport_branches_witness :
    Dto ctxWs = ctxWs.wsClient._dto ∧ Dto ctxHttp = ctxHttp.httpRequest.dto :=
  ⟨(Dto_transport_branches ctxWs).1 rfl,
   (Dto_transport_branches ctxHttp).2 (by decide)⟩

end Intent
